import Mathlib

/-!
Verification development for the Mock US Railway Cargo SSE Server (`server.js`).

The JavaScript source is shallowly embedded below:
* JS floating-point state (leg progress, speeds, dwell hours) is modelled by `ℚ`;
  the transcendental haversine distance is modelled over `ℝ` and enters the
  (otherwise exact) simulation step through an explicit distance-function
  parameter `dist`.
* `Math.random()`-driven choices are modelled by explicit random-source
  structures; `randInt lo hi` becomes `randIntN lo hi r` for a draw `r : ℕ`,
  which realises exactly the interval `[lo, hi]` when `lo ≤ hi` (and `lo`
  when `hi = lo - 1`), matching `Math.floor(Math.random()*(hi-lo+1))+lo`.
* Timestamps (`new Date().toISOString()`) are opaque `String` inputs.
* JS strings and their `toLowerCase`/`toUpperCase`/`includes`/`padStart`
  operations are modelled over `String`/`List Char` by executable functions.
-/

namespace Rail

/-- JS `randInt(min, max) = Math.floor(Math.random() * (max - min + 1)) + min`
(server.js lines 111-112) over naturals, with the random draw modelled by
`r : ℕ`.  For `lo ≤ hi` the value ranges over exactly `[lo, hi]`; for
`hi = lo - 1` JS yields `lo`, which the `max 1` reproduces. -/
def randIntN (lo hi r : Nat) : Nat := lo + r % (max 1 (hi + 1 - lo))

/-- JS `randInt` over integer bounds; used for the speed delta `randInt(-5, 5)`
(server.js line 337). -/
def randIntZ (lo hi : Int) (r : Nat) : Int := lo + ((r % (max 1 (hi + 1 - lo)).toNat : Nat) : Int)

theorem randIntN_lo_le (lo hi r : Nat) : lo ≤ randIntN lo hi r := Nat.le_add_right _ _

theorem randIntN_le_hi (lo hi r : Nat) (h : lo ≤ hi) : randIntN lo hi r ≤ hi := by
  have hpos : 0 < max 1 (hi + 1 - lo) := le_max_left _ _
  have hmod : r % max 1 (hi + 1 - lo) < max 1 (hi + 1 - lo) := Nat.mod_lt _ hpos
  have hmax : max 1 (hi + 1 - lo) = hi + 1 - lo := by omega
  unfold randIntN
  omega

/-- JS `String.prototype.startsWith`-style check on character lists (helper for
substring matching). -/
def strStartsB : List Char → List Char → Bool
  | [], _ => true
  | _ :: _, [] => false
  | a :: as, b :: bs => a == b && strStartsB as bs

/-- JS `String.prototype.includes` on character lists: `strHasSubB needle hay`
is `true` iff `needle` occurs contiguously in `hay`. -/
def strHasSubB : List Char → List Char → Bool
  | n, [] => n.isEmpty
  | n, h :: t => strStartsB n (h :: t) || strHasSubB n t

/-- JS `toLowerCase` (ASCII, as used on the station/train/cargo strings of
server.js). -/
def strLower (s : String) : String := ⟨s.data.map Char.toLower⟩

/-- JS `toUpperCase` (ASCII). -/
def strUpper (s : String) : String := ⟨s.data.map Char.toUpper⟩

/-- `matchesString` of server.js lines 436-439, specialised to actual strings
(the `typeof` guards hold on every call site reached in this model):
`value.toLowerCase().includes(filter.toLowerCase())`. -/
def matchesString (value filt : String) : Bool :=
  strHasSubB (strLower filt).data (strLower value).data

/-- JS `String(n).padStart(w, "0")` (server.js lines 139, 144-147). -/
def padStartZeros (w : Nat) (s : String) : String :=
  ⟨List.replicate (w - s.length) '0' ++ s.data⟩

/-- Truthiness of an optional string query parameter: in JS an absent
(`undefined`) or empty-string parameter is falsy. -/
def qTruthy : Option String → Bool
  | none => false
  | some s => !(s == "")

/-- The string value of an optional query parameter where JS would read it
(only ever used under `qTruthy`). -/
def qVal : Option String → String
  | none => ""
  | some s => s

/-- JS `a || b` on two optional string parameters (server.js line 434,
`awb || airwayBill`). -/
def jsOrStr (a b : Option String) : Option String := if qTruthy a then a else b

/-- `List.mapIdx` with an explicit start index; used to thread per-index random
draws through `forEach` loops. -/
def mapIdxFrom (f : Nat → α → β) : Nat → List α → List β
  | _, [] => []
  | i, a :: as => f i a :: mapIdxFrom f (i + 1) as

@[simp] theorem mapIdxFrom_nil (f : Nat → α → β) (i : Nat) : mapIdxFrom f i [] = [] := rfl

@[simp] theorem mapIdxFrom_cons (f : Nat → α → β) (i : Nat) (a : α) (as : List α) :
    mapIdxFrom f i (a :: as) = f i a :: mapIdxFrom f (i + 1) as := rfl

theorem mapIdxFrom_getElem? (f : Nat → α → β) (k : Nat) (l : List α) (i : Nat) :
    (mapIdxFrom f k l)[i]? = (l[i]?).map (f (k + i)) := by
  induction l generalizing k i with
  | nil => simp
  | cons a as ih =>
    cases i with
    | zero => simp
    | succ n =>
      have harg : k + (n + 1) = (k + 1) + n := by omega
      simp only [mapIdxFrom_cons, List.getElem?_cons_succ, ih, harg]

theorem mapIdxFrom_length (f : Nat → α → β) (k : Nat) (l : List α) :
    (mapIdxFrom f k l).length = l.length := by
  induction l generalizing k with
  | nil => rfl
  | cons a as ih => simp [mapIdxFrom_cons, ih]

/-- A station of the fictional network (server.js lines 51-100). -/
structure Station where
  code : String
  name : String
  city : String
  state : String
  lat : ℚ
  lon : ℚ
  deriving DecidableEq, Repr

def stationLA : Station :=
  { code := "LA", name := "Los Angeles Freight Yard", city := "Los Angeles",
    state := "CA", lat := 34.033, lon := -118.238 }

def stationKC : Station :=
  { code := "KC", name := "Kansas City Intermodal", city := "Kansas City",
    state := "MO", lat := 39.104, lon := -94.598 }

def stationCHI : Station :=
  { code := "CHI", name := "Chicago Rail Hub", city := "Chicago",
    state := "IL", lat := 41.874, lon := -87.64 }

def stationMEM : Station :=
  { code := "MEM", name := "Memphis Freight Terminal", city := "Memphis",
    state := "TN", lat := 35.149, lon := -90.049 }

def stationATL : Station :=
  { code := "ATL", name := "Atlanta Distribution Center", city := "Atlanta",
    state := "GA", lat := 33.749, lon := -84.388 }

def stationNYC : Station :=
  { code := "NYC", name := "New York Consolidation Yard", city := "New York",
    state := "NY", lat := 40.713, lon := -74.006 }

/-- `STATIONS` (server.js lines 51-100). -/
def STATIONS : List Station :=
  [stationLA, stationKC, stationCHI, stationMEM, stationATL, stationNYC]

/-- `ROUTES` (server.js lines 103-108). -/
def ROUTES : List (List String) :=
  [["LA", "KC", "CHI", "NYC"],
   ["LA", "MEM", "ATL", "NYC"],
   ["CHI", "KC", "MEM", "ATL"],
   ["NYC", "CHI", "KC", "LA"]]

/-- `stationByCode` (server.js lines 117-119). -/
def stationByCode (code : String) : Option Station :=
  STATIONS.find? (fun s => s.code == code)

/-- An airway bill / cargo item (server.js lines 161-172). -/
structure Awb where
  awbNumber : String
  originStationCode : String
  destStationCode : String
  pieces : Nat
  weightKg : Nat
  status : String
  lastUpdated : String
  loadedAt : String
  deliveredAt : Option String
  offloadedAtStationCode : Option String
  deriving DecidableEq, Repr

/-- A rail car (server.js lines 191-195). -/
structure Car where
  carNumber : String
  type : String
  airwayBills : List Awb
  deriving DecidableEq, Repr

/-- A train (server.js lines 198-215).  `lastUpdated` is absent until the
first tick touches the train, hence `Option`. -/
structure Train where
  id : String
  name : String
  route : List String
  currentLegIndex : Nat
  legProgress : ℚ
  speedKmh : ℚ
  displaySpeedKmh : ℚ
  dwellRemainingHours : ℚ
  cars : List Car
  lastUpdated : Option String
  deriving DecidableEq, Repr

/-- `generateCarNumber` (server.js lines 138-140). -/
def generateCarNumber (trainIndex carIndex : Nat) : String :=
  "R" ++ Nat.repr (trainIndex + 1) ++ padStartZeros 3 (Nat.repr (carIndex + 1))

/-- `generateAwbNumber` (server.js lines 142-148). -/
def generateAwbNumber (trainIndex carIndex awbIndex : Nat) : String :=
  "AWB-" ++ Nat.repr (trainIndex + 1) ++ Nat.repr (carIndex + 1)
    ++ padStartZeros 4 (Nat.repr (awbIndex + 1))

/-- The environment-variable configuration consumed by the tick step
(server.js lines 36-48). -/
structure Config where
  tickMs : ℚ
  timeScale : ℚ
  maxAwbsPerCar : Nat
  minDwellMinutes : Nat
  maxDwellMinutes : Nat

/-- Simulated hours per tick, `(TICK_MS / 3600000) * TIME_SCALE`
(server.js line 223). -/
def Config.dtHours (cfg : Config) : ℚ := cfg.tickMs / 3600000 * cfg.timeScale

/-- Random draws consumed by one `createAirwayBillsForCar` call (one draw per
`randInt` call, indexed by the loop counter where inside the loop). -/
structure CarInitRand where
  rCount : Nat
  rOrigin : Nat → Nat
  rDest : Nat → Nat
  rPieces : Nat → Nat
  rWeight : Nat → Nat

/-- `createAirwayBillsForCar` (server.js lines 151-176). -/
def createAirwayBillsForCar (cfg : Config) (rnd : CarInitRand) (route : List String)
    (trainIndex carIndex : Nat) (now : String) : List Awb :=
  let count := randIntN 1 cfg.maxAwbsPerCar rnd.rCount
  (List.range count).map (fun i =>
    let originIdx := randIntN 0 (route.length - 2) (rnd.rOrigin i)
    let destIdx := randIntN (originIdx + 1) (route.length - 1) (rnd.rDest i)
    { awbNumber := generateAwbNumber trainIndex carIndex i
      originStationCode := route.getD originIdx ""
      destStationCode := route.getD destIdx ""
      pieces := randIntN 1 10 (rnd.rPieces i)
      weightKg := randIntN 500 20000 (rnd.rWeight i)
      status := "LOADED"
      lastUpdated := now
      loadedAt := now
      deliveredAt := none
      offloadedAtStationCode := none })

/-- Random draws consumed per car on an arrival tick (server.js lines 277-311). -/
structure CarTickRand where
  genNew : Bool
  rAwbIdx : Nat
  rDest : Nat
  rPieces : Nat
  rWeight : Nat

/-- Random draws consumed by one `updateTrains` pass over one train. -/
structure TrainTickRand where
  car : Nat → CarTickRand
  rDwell : Nat
  tweak : Bool
  rDelta : Nat

/-- Decimal value of a digit string: `parseInt` as it behaves on the pure-digit
strings `train.id.slice(1)` takes for the ids `"T1"`, `"T2"`, … that
`createInitialTrains` produces (server.js lines 198-199, 294). -/
def digitsToNat (s : String) : Nat :=
  s.data.foldl (fun n c => n * 10 + (c.toNat - 48)) 0

/-- `parseInt(train.id.slice(1))` (server.js line 294). -/
def trainNumberOfId (id : String) : Nat := digitsToNat ⟨id.data.drop 1⟩

/-- The new airway bill loaded with probability 0.35 at an arrival station
(server.js lines 291-309).  `legIdx` is `train.currentLegIndex` at that point. -/
def newArrivalAwb (trainId : String) (route : List String) (legIdx : Nat)
    (arrivalStationCode now : String) (cr : CarTickRand) : Awb :=
  { awbNumber := generateAwbNumber (trainNumberOfId trainId - 1) 0 (randIntN 100 999 cr.rAwbIdx)
    originStationCode := arrivalStationCode
    destStationCode := route.getD (randIntN (legIdx + 1) (route.length - 1) cr.rDest) ""
    pieces := randIntN 1 10 cr.rPieces
    weightKg := randIntN 500 20000 cr.rWeight
    status := "LOADED"
    lastUpdated := now
    loadedAt := now
    deliveredAt := none
    offloadedAtStationCode := none }

/-- The delivery update applied to each airway bill on arrival
(server.js lines 278-288). -/
def deliverAwb (arrivalStationCode now : String) (awb : Awb) : Awb :=
  if awb.destStationCode = arrivalStationCode ∧ awb.status ≠ "DELIVERED" then
    { awb with status := "DELIVERED", lastUpdated := now, deliveredAt := some now,
               offloadedAtStationCode := some arrivalStationCode }
  else awb

/-- Arrival-tick update of one car: deliveries, then possibly one new bill
(server.js lines 277-311). -/
def updateCarArrival (trainId : String) (route : List String) (legIdx : Nat)
    (arrivalStationCode now : String) (cr : CarTickRand) (car : Car) : Car :=
  let bills := car.airwayBills.map (deliverAwb arrivalStationCode now)
  let bills := if cr.genNew then
      bills ++ [newArrivalAwb trainId route legIdx arrivalStationCode now cr]
    else bills
  { car with airwayBills := bills }

/-- The LOADED → IN_TRANSIT update applied mid-transit (server.js lines
320-331); `legProgress` is the train's progress after this tick's increment. -/
def transitAwb (originCode now : String) (legProgress : ℚ) (awb : Awb) : Awb :=
  if awb.originStationCode = originCode ∧ awb.status = "LOADED" ∧ 1/20 < legProgress then
    { awb with status := "IN_TRANSIT", lastUpdated := now }
  else awb

/-- Mid-transit update of one car (server.js lines 320-331). -/
def updateCarTransit (originCode now : String) (legProgress : ℚ) (car : Car) : Car :=
  { car with airwayBills := car.airwayBills.map (transitAwb originCode now legProgress) }

/-- Step 2 of the tick: leg rollover after a finished dwell
(server.js lines 242-248). -/
def rollLeg (t : Train) : Train :=
  if 1 ≤ t.legProgress then
    { t with
        currentLegIndex :=
          if t.route.length - 1 ≤ t.currentLegIndex + 1 then 0 else t.currentLegIndex + 1
        legProgress := 0 }
  else t

/-- Steps 3-5 of the tick for a train whose leg stations both resolved
(server.js lines 257-342): movement, then either the arrival block or the
mid-transit block. -/
def moveTrain (cfg : Config) (dist : Station → Station → ℚ) (now : String)
    (rnd : TrainTickRand) (t1 : Train) (fromStation toStation : Station) : Train :=
  if 1 ≤ t1.legProgress + t1.speedKmh * cfg.dtHours / dist fromStation toStation then
    { t1 with
        legProgress := 1
        cars := mapIdxFrom
          (fun i c => updateCarArrival t1.id t1.route t1.currentLegIndex
            (t1.route.getD (t1.currentLegIndex + 1) "") now (rnd.car i) c)
          0 t1.cars
        dwellRemainingHours :=
          ((randIntN cfg.minDwellMinutes cfg.maxDwellMinutes rnd.rDwell : Nat) : ℚ) / 60
        displaySpeedKmh := 0
        lastUpdated := some now }
  else
    { t1 with
        legProgress := t1.legProgress + t1.speedKmh * cfg.dtHours / dist fromStation toStation
        displaySpeedKmh := t1.speedKmh
        speedKmh :=
          if rnd.tweak then
            max 30 (min 110 (t1.speedKmh + ((randIntZ (-5) 5 rnd.rDelta : Int) : ℚ)))
          else t1.speedKmh
        cars := t1.cars.map (updateCarTransit (t1.route.getD t1.currentLegIndex "") now
          (t1.legProgress + t1.speedKmh * cfg.dtHours / dist fromStation toStation))
        lastUpdated := some now }

/-- One `updateTrains` pass over a single train (server.js lines 220-344).
`dist` is the leg-distance function (`haversineKm` over the station
coordinates in the source); `now` is this tick's `new Date().toISOString()`. -/
def updateTrain (cfg : Config) (dist : Station → Station → ℚ) (now : String)
    (rnd : TrainTickRand) (train : Train) : Train :=
  if train.route.length < 2 then train
  else if 0 < train.dwellRemainingHours then
    { train with
        dwellRemainingHours := max 0 (train.dwellRemainingHours - cfg.dtHours)
        displaySpeedKmh := 0
        lastUpdated := some now }
  else
    match stationByCode ((rollLeg train).route.getD (rollLeg train).currentLegIndex ""),
          stationByCode ((rollLeg train).route.getD ((rollLeg train).currentLegIndex + 1) "") with
    | some fromStation, some toStation =>
        moveTrain cfg dist now rnd (rollLeg train) fromStation toStation
    | _, _ => rollLeg train

/-- `updateTrains` over the whole fleet (server.js lines 220-344): one shared
`nowIso`, independent random draws per train. -/
def updateTrains (cfg : Config) (dist : Station → Station → ℚ) (now : String)
    (rnd : Nat → TrainTickRand) (trains : List Train) : List Train :=
  mapIdxFrom (fun i t => updateTrain cfg dist now (rnd i) t) 0 trains

/-- The inputs of one tick for one train: the tick's timestamp and its random
draws. -/
structure TickInput where
  now : String
  rnd : TrainTickRand

/-- A sequence of simulation ticks applied to one train. -/
def runTicks (cfg : Config) (dist : Station → Station → ℚ)
    (ticks : List TickInput) (t : Train) : Train :=
  ticks.foldl (fun tr inp => updateTrain cfg dist inp.now inp.rnd tr) t

/-- A per-train snapshot as produced by `getTrainSnapshots`
(server.js lines 347-421); the filter engine consumes a list of these. -/
structure Snapshot where
  id : String
  name : String
  speedKmh : ℚ
  route : List String
  fromStationCode : String
  toStationCode : String
  legProgress : ℚ
  locLat : Option ℚ
  locLon : Option ℚ
  cars : List Car
  lastUpdated : String
  deriving DecidableEq, Repr

/-- The filter query parameters of `/SSE/Stream` (server.js lines 424-432);
`none` models an absent parameter. -/
structure Query where
  awb : Option String
  airwayBill : Option String
  trainName : Option String
  carNumber : Option String
  station : Option String
  status : Option String
  deriving DecidableEq, Repr

/-- The query with every criterion field absent. -/
def emptyQuery : Query := ⟨none, none, none, none, none, none⟩

/-- The airway-bill-level predicate of `applyFilters` (server.js lines
460-487): sequential early-`false` returns for the awb, station and status
criteria. -/
def awbPassesB (awbFilter station status : Option String) (awbObj : Awb) : Bool :=
  if qTruthy awbFilter && !matchesString awbObj.awbNumber (qVal awbFilter) then false
  else if qTruthy station
      && !(matchesString awbObj.originStationCode (qVal station)
          || matchesString awbObj.destStationCode (qVal station)
          || matchesString (awbObj.offloadedAtStationCode.getD "") (qVal station)) then false
  else if qTruthy status && !(awbObj.status == strUpper (qVal status)) then false
  else true

/-- The cargo-level car filtering of `applyFilters` (server.js lines 458-496):
keep each car's matching bills, drop the car if none remain
(`.map(...).filter(Boolean)`). -/
def filterCarsCargo (awbFilter station status : Option String) (cars : List Car) : List Car :=
  cars.filterMap (fun car =>
    let filteredAwbs := car.airwayBills.filter (fun a => awbPassesB awbFilter station status a)
    if filteredAwbs.length = 0 then none
    else some { car with airwayBills := filteredAwbs })

/-- The car-number filtering stage of `applyFilters` (server.js lines
450-454): applied only when the `carNumber` parameter is truthy. -/
def carStageFilter (query : Query) (cars : List Car) : List Car :=
  if qTruthy query.carNumber then
    cars.filter (fun car => matchesString car.carNumber (qVal query.carNumber))
  else cars

/-- The cargo filtering stage of `applyFilters` (server.js lines 457-496):
applied only when one of the awb/station/status parameters is truthy. -/
def cargoStageFilter (query : Query) (cars : List Car) : List Car :=
  if qTruthy (jsOrStr query.awb query.airwayBill) || qTruthy query.station
      || qTruthy query.status then
    filterCarsCargo (jsOrStr query.awb query.airwayBill) query.station query.status cars
  else cars

/-- The per-train body of `applyFilters` (server.js lines 442-507). -/
def applyFiltersTrain (query : Query) (train : Snapshot) : Option Snapshot :=
  if qTruthy query.trainName && !matchesString train.name (qVal query.trainName) then none
  else if (cargoStageFilter query (carStageFilter query train.cars)).length = 0 then none
  else some { train with cars := cargoStageFilter query (carStageFilter query train.cars) }

/-- `applyFilters` (server.js lines 424-509); `.map(...).filter(Boolean)` is
`List.filterMap`. -/
def applyFilters (snapshots : List Snapshot) (query : Query) : List Snapshot :=
  snapshots.filterMap (applyFiltersTrain query)

/-- Spec §4.5 step 3, stated in the spec's words: an item survives iff it
satisfies every present matcher simultaneously — substring case-insensitive
cargo id; station substring match against origin OR destination OR offload
station (null offload read as the empty string); status equal after
uppercasing the query. -/
def specItemSurvives (q : Query) (a : Awb) : Bool :=
  (!qTruthy (jsOrStr q.awb q.airwayBill)
      || matchesString a.awbNumber (qVal (jsOrStr q.awb q.airwayBill)))
  && (!qTruthy q.station
      || (matchesString a.originStationCode (qVal q.station)
          || matchesString a.destStationCode (qVal q.station)
          || matchesString (a.offloadedAtStationCode.getD "") (qVal q.station)))
  && (!qTruthy q.status || a.status == strUpper (qVal q.status))

/-- Spec §4.5 step 3 at the car level: filter each car's cargo by
`specItemSurvives`; a car whose cargo collection becomes empty is dropped. -/
def specCargoStep (q : Query) (cars : List Car) : List Car :=
  cars.filterMap (fun car =>
    let kept := car.airwayBills.filter (specItemSurvives q)
    if kept.isEmpty then none else some { car with airwayBills := kept })

/-- The spec's §4.5 pipeline with the cargo-level step applied (the case "any
of the cargo-id/station/status matchers is present"): step 1 train name,
step 2 car identifier, step 3 cargo filtering with empty cars dropped,
step 4 trains with zero remaining cars dropped; all other train fields pass
through unchanged. -/
def specFilterPresent (q : Query) (snapshots : List Snapshot) : List Snapshot :=
  snapshots.filterMap (fun tr =>
    if qTruthy q.trainName && !matchesString tr.name (qVal q.trainName) then none
    else if (specCargoStep q (carStageFilter q tr.cars)).isEmpty then none
    else some { tr with cars := specCargoStep q (carStageFilter q tr.cars) })

/-- One `TICK_MS` interval of the SSE endpoint (server.js lines 512-559): every
connected subscriber owns a `setInterval(sendUpdate, TICK_MS)`, so during one
interval each subscriber's `sendUpdate` runs once — and each `sendUpdate`
begins by calling `updateTrains()` on the shared `trains` array (line 527).
The list holds one entry per connected subscriber: that invocation's
timestamp and random draws. -/
def sseIntervalRound (cfg : Config) (dist : Station → Station → ℚ)
    (subscriberTicks : List (String × (Nat → TrainTickRand))) (fleet : List Train) :
    List Train :=
  subscriberTicks.foldl (fun f inp => updateTrains cfg dist inp.1 inp.2 f) fleet

/-- JS `(d * Math.PI) / 180` (server.js line 124). -/
noncomputable def toRad (d : ℝ) : ℝ := d * Real.pi / 180

/-- JS `Math.atan2 y x` on the real line, by quadrant; only the `0 ≤ x`
branches are ever reached from `haversineKm` (both arguments are square
roots). -/
noncomputable def atan2 (y x : ℝ) : ℝ :=
  if 0 < x then Real.arctan (y / x)
  else if x < 0 then
    (if 0 ≤ y then Real.arctan (y / x) + Real.pi else Real.arctan (y / x) - Real.pi)
  else if 0 < y then Real.pi / 2
  else if y < 0 then -(Real.pi / 2)
  else 0

/-- `haversineKm` (server.js lines 122-135), including the `|| 1`
zero-distance floor on the final line. -/
noncomputable def haversineKm (lat1 lon1 lat2 lon2 : ℝ) : ℝ :=
  let R : ℝ := 6371
  let dLat := toRad (lat2 - lat1)
  let dLon := toRad (lon2 - lon1)
  let a := Real.sin (dLat / 2) * Real.sin (dLat / 2)
    + Real.cos (toRad lat1) * Real.cos (toRad lat2)
      * Real.sin (dLon / 2) * Real.sin (dLon / 2)
  let c := 2 * atan2 (Real.sqrt a) (Real.sqrt (1 - a))
  if R * c = 0 then 1 else R * c

/-! ### Geo model: positivity of the haversine distance (claim C6) -/

theorem arctan_nonneg_of_nonneg {x : ℝ} (h : 0 ≤ x) : 0 ≤ Real.arctan x := by
  simpa using Real.arctan_strictMono.monotone h

theorem atan2_nonneg {y x : ℝ} (hy : 0 ≤ y) (hx : 0 ≤ x) : 0 ≤ atan2 y x := by
  unfold atan2
  rcases hx.lt_or_eq with hxpos | hxeq
  · rw [if_pos hxpos]
    exact arctan_nonneg_of_nonneg (div_nonneg hy hxpos.le)
  · subst hxeq
    rw [if_neg (lt_irrefl 0), if_neg (lt_irrefl 0)]
    split_ifs with h3 h4
    · positivity
    · exact absurd h4 (not_lt.mpr hy)
    · exact le_refl 0

/-- Claim C6: `haversineKm` — the haversine great-circle distance with Earth
radius 6371 km and the `|| 1` floor of server.js line 134 — is strictly
positive on every pair of coordinates, so the downstream speed-to-progress
division never divides by zero. -/
theorem claim_C6 (lat1 lon1 lat2 lon2 : ℝ) : 0 < haversineKm lat1 lon1 lat2 lon2 := by
  have key : ∀ A : ℝ,
      0 < (if (6371 : ℝ) * (2 * atan2 (Real.sqrt A) (Real.sqrt (1 - A))) = 0 then 1
           else (6371 : ℝ) * (2 * atan2 (Real.sqrt A) (Real.sqrt (1 - A)))) := by
    intro A
    have h0 : 0 ≤ (6371 : ℝ) * (2 * atan2 (Real.sqrt A) (Real.sqrt (1 - A))) :=
      mul_nonneg (by norm_num)
        (mul_nonneg (by norm_num) (atan2_nonneg (Real.sqrt_nonneg _) (Real.sqrt_nonneg _)))
    split_ifs with h
    · norm_num
    · exact lt_of_le_of_ne h0 (Ne.symm h)
  exact key _

/-! ### Tick invariant: leg progress and leg index stay in range (claim C2) -/

/-- The per-train state invariant of claim C2, together with the speed and
dwell nonnegativity facts that make it inductive. -/
def TrainOK (t : Train) : Prop :=
  0 ≤ t.legProgress ∧ t.legProgress ≤ 1 ∧
  (2 ≤ t.route.length → t.currentLegIndex + 2 ≤ t.route.length) ∧
  0 ≤ t.speedKmh ∧ 0 ≤ t.dwellRemainingHours

theorem TrainOK_rollLeg {t : Train} (h : TrainOK t) : TrainOK (rollLeg t) := by
  obtain ⟨h0, h1, hidx, hsp, hdw⟩ := h
  by_cases hp : 1 ≤ t.legProgress
  · unfold rollLeg
    rw [if_pos hp]
    refine ⟨le_refl 0, zero_le_one, ?_, hsp, hdw⟩
    intro h2
    dsimp only at h2 ⊢
    have := hidx h2
    split_ifs with hwrap <;> omega
  · unfold rollLeg
    rw [if_neg hp]
    exact ⟨h0, h1, hidx, hsp, hdw⟩

/-- Branch characterization: short routes are skipped (server.js line 227). -/
theorem updateTrain_of_short (cfg : Config) (dist : Station → Station → ℚ) (now : String)
    (rnd : TrainTickRand) (t : Train) (h : t.route.length < 2) :
    updateTrain cfg dist now rnd t = t := by
  unfold updateTrain
  rw [if_pos h]

/-- Branch characterization: the dwell countdown (server.js lines 230-238). -/
theorem updateTrain_of_dwell (cfg : Config) (dist : Station → Station → ℚ) (now : String)
    (rnd : TrainTickRand) (t : Train) (hlen : ¬ t.route.length < 2)
    (h : 0 < t.dwellRemainingHours) :
    updateTrain cfg dist now rnd t =
      { t with
          dwellRemainingHours := max 0 (t.dwellRemainingHours - cfg.dtHours)
          displaySpeedKmh := 0
          lastUpdated := some now } := by
  unfold updateTrain
  rw [if_neg hlen, if_pos h]

/-- Branch characterization: both leg stations resolve (server.js lines 250-342). -/
theorem updateTrain_of_move (cfg : Config) (dist : Station → Station → ℚ) (now : String)
    (rnd : TrainTickRand) (t : Train) (f g : Station) (hlen : ¬ t.route.length < 2)
    (hdw : ¬ 0 < t.dwellRemainingHours)
    (hf : stationByCode ((rollLeg t).route.getD (rollLeg t).currentLegIndex "") = some f)
    (hg : stationByCode ((rollLeg t).route.getD ((rollLeg t).currentLegIndex + 1) "") = some g) :
    updateTrain cfg dist now rnd t = moveTrain cfg dist now rnd (rollLeg t) f g := by
  unfold updateTrain
  rw [if_neg hlen, if_neg hdw, hf, hg]

/-- Branch characterization: an unresolved origin station ends the tick after
the rollover (server.js line 255). -/
theorem updateTrain_of_noFrom (cfg : Config) (dist : Station → Station → ℚ) (now : String)
    (rnd : TrainTickRand) (t : Train) (hlen : ¬ t.route.length < 2)
    (hdw : ¬ 0 < t.dwellRemainingHours)
    (hf : stationByCode ((rollLeg t).route.getD (rollLeg t).currentLegIndex "") = none) :
    updateTrain cfg dist now rnd t = rollLeg t := by
  unfold updateTrain
  rw [if_neg hlen, if_neg hdw, hf]

/-- Branch characterization: an unresolved destination station ends the tick
after the rollover (server.js line 255). -/
theorem updateTrain_of_noTo (cfg : Config) (dist : Station → Station → ℚ) (now : String)
    (rnd : TrainTickRand) (t : Train) (f : Station) (hlen : ¬ t.route.length < 2)
    (hdw : ¬ 0 < t.dwellRemainingHours)
    (hf : stationByCode ((rollLeg t).route.getD (rollLeg t).currentLegIndex "") = some f)
    (hg : stationByCode ((rollLeg t).route.getD ((rollLeg t).currentLegIndex + 1) "") = none) :
    updateTrain cfg dist now rnd t = rollLeg t := by
  unfold updateTrain
  rw [if_neg hlen, if_neg hdw, hf, hg]

theorem moveTrain_ok (cfg : Config) (dist : Station → Station → ℚ) (now : String)
    (rnd : TrainTickRand) (t1 : Train) (f g : Station)
    (h : TrainOK t1) (hdt : 0 ≤ cfg.dtHours) (hd : 0 < dist f g) :
    TrainOK (moveTrain cfg dist now rnd t1 f g) ∧
    (moveTrain cfg dist now rnd t1 f g).currentLegIndex = t1.currentLegIndex ∧
    (moveTrain cfg dist now rnd t1 f g).route = t1.route := by
  obtain ⟨h0, h1, hidx, hsp, hdw⟩ := h
  have hinc : 0 ≤ t1.speedKmh * cfg.dtHours / dist f g :=
    div_nonneg (mul_nonneg hsp hdt) hd.le
  by_cases hp : 1 ≤ t1.legProgress + t1.speedKmh * cfg.dtHours / dist f g
  · unfold moveTrain
    rw [if_pos hp]
    refine ⟨⟨zero_le_one, le_refl 1, hidx, hsp, ?_⟩, rfl, rfl⟩
    have hcast : (0 : ℚ) ≤ ((randIntN cfg.minDwellMinutes cfg.maxDwellMinutes rnd.rDwell : Nat) : ℚ) :=
      Nat.cast_nonneg _
    dsimp only
    positivity
  · unfold moveTrain
    rw [if_neg hp]
    have hlt : t1.legProgress + t1.speedKmh * cfg.dtHours / dist f g < 1 := not_le.mp hp
    refine ⟨⟨add_nonneg h0 hinc, hlt.le, hidx, ?_, hdw⟩, rfl, rfl⟩
    dsimp only
    split_ifs with htw
    · exact le_trans (by norm_num) (le_max_left (30 : ℚ) _)
    · exact hsp

/-- Claim C2: after a simulation tick from any state satisfying the invariant,
`0 ≤ legProgress ≤ 1` (with `legProgress` clamped to exactly 1 on arrival,
which the invariant's upper bound reflects) and `currentLegIndex` still
indexes a valid leg (`currentLegIndex + 2 ≤ route.length`); moreover, on the
tick that rolls past a completed final leg the index wraps to 0, giving
cyclic traversal.  Hypotheses: nonnegative tick duration and strictly
positive leg distances (the latter is exactly claim C6 for `haversineKm`). -/
theorem claim_C2 (cfg : Config) (dist : Station → Station → ℚ) (now : String)
    (rnd : TrainTickRand) (t : Train)
    (hOK : TrainOK t) (hdt : 0 ≤ cfg.dtHours) (hdist : ∀ a b, 0 < dist a b) :
    TrainOK (updateTrain cfg dist now rnd t) ∧
    (2 ≤ t.route.length → t.dwellRemainingHours ≤ 0 → 1 ≤ t.legProgress →
      t.currentLegIndex + 2 = t.route.length →
      (updateTrain cfg dist now rnd t).currentLegIndex = 0) := by
  have hOK1 := TrainOK_rollLeg hOK
  constructor
  · by_cases hlen : t.route.length < 2
    · rw [updateTrain_of_short cfg dist now rnd t hlen]
      exact hOK
    · by_cases hdw : 0 < t.dwellRemainingHours
      · rw [updateTrain_of_dwell cfg dist now rnd t hlen hdw]
        exact ⟨hOK.1, hOK.2.1, hOK.2.2.1, hOK.2.2.2.1, le_max_left 0 _⟩
      · cases hf : stationByCode ((rollLeg t).route.getD (rollLeg t).currentLegIndex "") with
        | none => rw [updateTrain_of_noFrom cfg dist now rnd t hlen hdw hf]; exact hOK1
        | some f =>
          cases hg : stationByCode ((rollLeg t).route.getD ((rollLeg t).currentLegIndex + 1) "") with
          | none => rw [updateTrain_of_noTo cfg dist now rnd t f hlen hdw hf hg]; exact hOK1
          | some g =>
            rw [updateTrain_of_move cfg dist now rnd t f g hlen hdw hf hg]
            exact (moveTrain_ok cfg dist now rnd (rollLeg t) f g hOK1 hdt (hdist f g)).1
  · intro hlen2 hdwl hprog hidx
    have hlen : ¬ t.route.length < 2 := by omega
    have hdw : ¬ 0 < t.dwellRemainingHours := not_lt.mpr hdwl
    have hroll : (rollLeg t).currentLegIndex = 0 := by
      unfold rollLeg
      rw [if_pos hprog]
      dsimp only
      rw [if_pos (by omega)]
    cases hf : stationByCode ((rollLeg t).route.getD (rollLeg t).currentLegIndex "") with
    | none => rw [updateTrain_of_noFrom cfg dist now rnd t hlen hdw hf]; exact hroll
    | some f =>
      cases hg : stationByCode ((rollLeg t).route.getD ((rollLeg t).currentLegIndex + 1) "") with
      | none => rw [updateTrain_of_noTo cfg dist now rnd t f hlen hdw hf hg]; exact hroll
      | some g =>
        rw [updateTrain_of_move cfg dist now rnd t f g hlen hdw hf hg]
        exact ((moveTrain_ok cfg dist now rnd (rollLeg t) f g hOK1 hdt (hdist f g)).2.1).trans hroll

/-- The `.env.example` default configuration of server.js lines 36-48
(TICK_MS=5000, TIME_SCALE=60, MAX_AWBS_PER_CAR=5, dwell 5-20 minutes). -/
def defaultConfig : Config :=
  { tickMs := 5000, timeScale := 60, maxAwbsPerCar := 5,
    minDwellMinutes := 5, maxDwellMinutes := 20 }

/-- A trivial random source for concrete evaluations: every probability check
fails, every draw is 0. -/
def zeroCarTickRand : CarTickRand :=
  { genNew := false, rAwbIdx := 0, rDest := 0, rPieces := 0, rWeight := 0 }

def zeroTrainTickRand : TrainTickRand :=
  { car := fun _ => zeroCarTickRand, rDwell := 0, tweak := false, rDelta := 0 }

/-- A constant leg-distance function for concrete evaluations. -/
def constDist (q : ℚ) : Station → Station → ℚ := fun _ _ => q

/-- A concrete mid-leg train used by the witnesses. -/
def witnessTrain : Train :=
  { id := "T1", name := "Pacific Runner 1", route := ["LA", "KC", "CHI", "NYC"],
    currentLegIndex := 0, legProgress := 1/2, speedKmh := 60, displaySpeedKmh := 60,
    dwellRemainingHours := 0, cars := [], lastUpdated := none }

theorem claim_C2_witness :
    TrainOK witnessTrain ∧ TrainOK (updateTrain defaultConfig (constDist 690) "now" zeroTrainTickRand witnessTrain) := by
  have h : TrainOK witnessTrain := by
    refine ⟨by norm_num [witnessTrain], by norm_num [witnessTrain], ?_, by norm_num [witnessTrain], by norm_num [witnessTrain]⟩
    intro _
    norm_num [witnessTrain]
  exact ⟨h, (claim_C2 defaultConfig (constDist 690) "now" zeroTrainTickRand witnessTrain h
    (by norm_num [Config.dtHours, defaultConfig]) (fun a b => by norm_num [constDist])).1⟩

/-! ### Cargo lifecycle: the status machine only advances (claim C1) -/

/-- Position of a status in the `LOADED → IN_TRANSIT → DELIVERED` chain. -/
def statusRank (s : String) : Nat :=
  if s = "DELIVERED" then 2 else if s = "IN_TRANSIT" then 1 else 0

theorem statusRank_le_two (s : String) : statusRank s ≤ 2 := by
  unfold statusRank
  split_ifs <;> omega

/-- The airway bill of a car at position `(ci, ai)` of a train, if any. -/
def awbAt (t : Train) (ci ai : Nat) : Option Awb :=
  (t.cars[ci]?).bind fun c => c.airwayBills[ai]?

theorem deliverAwb_rank (arr now : String) (a : Awb) :
    statusRank a.status ≤ statusRank (deliverAwb arr now a).status ∧
    (a.status = "DELIVERED" → deliverAwb arr now a = a) := by
  unfold deliverAwb
  split_ifs with h
  · exact ⟨by simpa [statusRank] using statusRank_le_two a.status,
      fun hd => absurd hd h.2⟩
  · exact ⟨le_refl _, fun _ => rfl⟩

theorem transitAwb_rank (ori now : String) (p : ℚ) (a : Awb) :
    statusRank a.status ≤ statusRank (transitAwb ori now p a).status ∧
    (a.status = "DELIVERED" → transitAwb ori now p a = a) := by
  unfold transitAwb
  split_ifs with h
  · refine ⟨?_, fun hd => ?_⟩
    · simp [statusRank, h.2.1]
    · rw [h.2.1] at hd
      exact absurd hd (by decide)
  · exact ⟨le_refl _, fun _ => rfl⟩

theorem rollLeg_cars (t : Train) : (rollLeg t).cars = t.cars := by
  unfold rollLeg
  split <;> rfl

theorem updateCarArrival_bill (trainId : String) (route : List String) (legIdx : Nat)
    (arr now : String) (cr : CarTickRand) (car : Car) (ai : Nat) (a : Awb)
    (h : car.airwayBills[ai]? = some a) :
    (updateCarArrival trainId route legIdx arr now cr car).airwayBills[ai]? =
      some (deliverAwb arr now a) := by
  have hlt : ai < car.airwayBills.length := by
    by_contra hge
    rw [List.getElem?_eq_none (by omega)] at h
    exact Option.noConfusion h
  unfold updateCarArrival
  dsimp only
  split_ifs with hgen
  · rw [List.getElem?_append_left (by simpa using hlt), List.getElem?_map, h]
    rfl
  · rw [List.getElem?_map, h]
    rfl

/-- One tick moves the bill at any fixed position forward in the status chain
and leaves an already-DELIVERED bill untouched in every field. -/
theorem tick_awb (cfg : Config) (dist : Station → Station → ℚ) (now : String)
    (rnd : TrainTickRand) (t : Train) (ci ai : Nat) (a : Awb)
    (h : awbAt t ci ai = some a) :
    ∃ a', awbAt (updateTrain cfg dist now rnd t) ci ai = some a' ∧
      statusRank a.status ≤ statusRank a'.status ∧
      (a.status = "DELIVERED" → a' = a) := by
  obtain ⟨c, hc, hb⟩ : ∃ c, t.cars[ci]? = some c ∧ c.airwayBills[ai]? = some a := by
    cases hcc : t.cars[ci]? with
    | none => rw [awbAt, hcc] at h; exact Option.noConfusion h
    | some c => exact ⟨c, rfl, by rw [awbAt, hcc] at h; exact h⟩
  by_cases hlen : t.route.length < 2
  · exact ⟨a, by rw [updateTrain_of_short cfg dist now rnd t hlen]; exact h, le_refl _, fun _ => rfl⟩
  · by_cases hdwc : 0 < t.dwellRemainingHours
    · refine ⟨a, ?_, le_refl _, fun _ => rfl⟩
      rw [updateTrain_of_dwell cfg dist now rnd t hlen hdwc]
      exact h
    · have hrollAt : awbAt (rollLeg t) ci ai = some a := by
        rw [awbAt, rollLeg_cars]
        rw [awbAt] at h
        exact h
      cases hf : stationByCode ((rollLeg t).route.getD (rollLeg t).currentLegIndex "") with
      | none =>
        exact ⟨a, by rw [updateTrain_of_noFrom cfg dist now rnd t hlen hdwc hf]; exact hrollAt,
          le_refl _, fun _ => rfl⟩
      | some f =>
        cases hg : stationByCode ((rollLeg t).route.getD ((rollLeg t).currentLegIndex + 1) "") with
        | none =>
          exact ⟨a, by rw [updateTrain_of_noTo cfg dist now rnd t f hlen hdwc hf hg]; exact hrollAt,
            le_refl _, fun _ => rfl⟩
        | some g =>
          rw [updateTrain_of_move cfg dist now rnd t f g hlen hdwc hf hg]
          have hc1 : (rollLeg t).cars[ci]? = some c := by rw [rollLeg_cars]; exact hc
          by_cases hp : 1 ≤ (rollLeg t).legProgress +
              (rollLeg t).speedKmh * cfg.dtHours / dist f g
          · refine ⟨deliverAwb ((rollLeg t).route.getD ((rollLeg t).currentLegIndex + 1) "") now a,
              ?_, (deliverAwb_rank _ _ _).1, (deliverAwb_rank _ _ _).2⟩
            unfold moveTrain
            rw [if_pos hp]
            rw [awbAt]
            rw [mapIdxFrom_getElem?, hc1]
            simp only [Option.map_some', Option.some_bind]
            exact updateCarArrival_bill _ _ _ _ _ _ _ _ _ hb
          · refine ⟨transitAwb ((rollLeg t).route.getD (rollLeg t).currentLegIndex "") now
              ((rollLeg t).legProgress + (rollLeg t).speedKmh * cfg.dtHours / dist f g) a,
              ?_, (transitAwb_rank _ _ _ _).1, (transitAwb_rank _ _ _ _).2⟩
            unfold moveTrain
            rw [if_neg hp]
            rw [awbAt]
            rw [List.getElem?_map, hc1]
            simp only [Option.map_some', Option.some_bind]
            unfold updateCarTransit
            dsimp only
            rw [List.getElem?_map, hb]
            rfl

/-- Claim C1: across any sequence of simulation ticks, the status of the cargo
item at any fixed position only advances along LOADED → IN_TRANSIT →
DELIVERED (its `statusRank` never decreases); once the item is DELIVERED, no
further tick — including a second arrival-delivery pass at `legProgress = 1`
— changes any of its fields (status, `deliveredAt`, `offloadedAtStationCode`,
`lastUpdated`): the final record equals the delivered one. -/
theorem claim_C1 (cfg : Config) (dist : Station → Station → ℚ) (ticks : List TickInput)
    (t : Train) (ci ai : Nat) (a : Awb) (h : awbAt t ci ai = some a) :
    ∃ a', awbAt (runTicks cfg dist ticks t) ci ai = some a' ∧
      statusRank a.status ≤ statusRank a'.status ∧
      (a.status = "DELIVERED" → a' = a) := by
  induction ticks generalizing t a with
  | nil => exact ⟨a, h, le_refl _, fun _ => rfl⟩
  | cons inp rest ih =>
    obtain ⟨a1, h1, hrank1, hfroz1⟩ := tick_awb cfg dist inp.now inp.rnd t ci ai a h
    obtain ⟨a2, h2, hrank2, hfroz2⟩ := ih (updateTrain cfg dist inp.now inp.rnd t) a1 h1
    refine ⟨a2, h2, le_trans hrank1 hrank2, fun hd => ?_⟩
    have e1 : a1 = a := hfroz1 hd
    rw [e1] at hfroz2
    exact hfroz2 hd

/-- A delivered bill used by the C1 witness. -/
def witnessAwbDelivered : Awb :=
  { awbNumber := "AWB-110001", originStationCode := "LA", destStationCode := "KC",
    pieces := 3, weightKg := 1200, status := "DELIVERED", lastUpdated := "t0",
    loadedAt := "t0", deliveredAt := some "t0", offloadedAtStationCode := some "KC" }

/-- A train holding the delivered bill, used by the C1 witness. -/
def witnessTrainC1 : Train :=
  { id := "T1", name := "Pacific Runner 1", route := ["LA", "KC", "CHI", "NYC"],
    currentLegIndex := 0, legProgress := 1/2, speedKmh := 60, displaySpeedKmh := 60,
    dwellRemainingHours := 0,
    cars := [{ carNumber := "R1001", type := "BOXCAR", airwayBills := [witnessAwbDelivered] }],
    lastUpdated := none }

theorem claim_C1_witness :
    awbAt witnessTrainC1 0 0 = some witnessAwbDelivered ∧
    ∃ a', awbAt (runTicks defaultConfig (constDist 690)
        [⟨"t1", zeroTrainTickRand⟩, ⟨"t2", zeroTrainTickRand⟩] witnessTrainC1) 0 0 = some a' ∧
      statusRank witnessAwbDelivered.status ≤ statusRank a'.status ∧
      (witnessAwbDelivered.status = "DELIVERED" → a' = witnessAwbDelivered) := by
  have h : awbAt witnessTrainC1 0 0 = some witnessAwbDelivered := rfl
  exact ⟨h, claim_C1 defaultConfig (constDist 690)
    [⟨"t1", zeroTrainTickRand⟩, ⟨"t2", zeroTrainTickRand⟩] witnessTrainC1 0 0 witnessAwbDelivered h⟩

/-! ### Filter engine: the source filter refines the spec's description
(claims C3, C9, C10) -/

theorem awbPassesB_eq_spec (q : Query) (a : Awb) :
    awbPassesB (jsOrStr q.awb q.airwayBill) q.station q.status a = specItemSurvives q a := by
  unfold awbPassesB specItemSurvives
  cases h1 : qTruthy (jsOrStr q.awb q.airwayBill) <;>
    cases h2 : matchesString a.awbNumber (qVal (jsOrStr q.awb q.airwayBill)) <;>
    cases h3 : qTruthy q.station <;>
    cases h4 : matchesString a.originStationCode (qVal q.station) <;>
    cases h5 : matchesString a.destStationCode (qVal q.station) <;>
    cases h6 : matchesString (a.offloadedAtStationCode.getD "") (qVal q.station) <;>
    cases h7 : qTruthy q.status <;>
    cases h8 : a.status == strUpper (qVal q.status) <;>
    rfl

theorem filterCarsCargo_eq_spec (q : Query) (cars : List Car) :
    filterCarsCargo (jsOrStr q.awb q.airwayBill) q.station q.status cars =
      specCargoStep q cars := by
  unfold filterCarsCargo specCargoStep
  apply List.filterMap_congr
  intro car _
  have hfa : car.airwayBills.filter
        (fun a => awbPassesB (jsOrStr q.awb q.airwayBill) q.station q.status a) =
      car.airwayBills.filter (specItemSurvives q) :=
    List.filter_congr (fun a _ => awbPassesB_eq_spec q a)
  simp only [hfa, List.isEmpty_iff, List.length_eq_zero]

/-- Claim C3: whenever at least one of the cargo-id, station or status
matchers is present, `applyFilters` computes exactly the spec's §4.5
pipeline: a cargo item survives iff it satisfies every present matcher
simultaneously (`specItemSurvives`), a car whose cargo collection becomes
empty is dropped, and a train with zero cars remaining is dropped, with all
other train fields passing through unchanged. -/
theorem claim_C3 (snaps : List Snapshot) (q : Query)
    (hq : (qTruthy (jsOrStr q.awb q.airwayBill) || qTruthy q.station
      || qTruthy q.status) = true) :
    applyFilters snaps q = specFilterPresent q snaps := by
  unfold applyFilters specFilterPresent
  apply List.filterMap_congr
  intro tr _
  have hcs : cargoStageFilter q (carStageFilter q tr.cars) =
      specCargoStep q (carStageFilter q tr.cars) := by
    unfold cargoStageFilter
    rw [if_pos hq]
    exact filterCarsCargo_eq_spec q _
  unfold applyFiltersTrain
  rw [hcs]
  simp only [List.isEmpty_iff, List.length_eq_zero]

/-- Bills used by the C3 DELIVERED-scenario witness. -/
def awbC3Delivered : Awb :=
  { awbNumber := "AWB-110001", originStationCode := "LA", destStationCode := "KC",
    pieces := 4, weightKg := 8200, status := "DELIVERED", lastUpdated := "t1",
    loadedAt := "t0", deliveredAt := some "t1", offloadedAtStationCode := some "KC" }

def awbC3Loaded1 : Awb :=
  { awbNumber := "AWB-110002", originStationCode := "KC", destStationCode := "CHI",
    pieces := 2, weightKg := 900, status := "LOADED", lastUpdated := "t0",
    loadedAt := "t0", deliveredAt := none, offloadedAtStationCode := none }

def awbC3Loaded2 : Awb :=
  { awbNumber := "AWB-120001", originStationCode := "LA", destStationCode := "NYC",
    pieces := 7, weightKg := 15000, status := "IN_TRANSIT", lastUpdated := "t1",
    loadedAt := "t0", deliveredAt := none, offloadedAtStationCode := none }

/-- A snapshot with 3 cargo items of which exactly 1 is DELIVERED. -/
def snapC3 : Snapshot :=
  { id := "T1", name := "Pacific Runner 1", speedKmh := 60,
    route := ["LA", "KC", "CHI", "NYC"], fromStationCode := "KC", toStationCode := "CHI",
    legProgress := 0, locLat := none, locLon := none,
    cars := [{ carNumber := "R1001", type := "BOXCAR",
               airwayBills := [awbC3Delivered, awbC3Loaded1] },
             { carNumber := "R1002", type := "TANK", airwayBills := [awbC3Loaded2] }],
    lastUpdated := "t1" }

def queryC3 : Query := ⟨none, none, none, none, none, some "DELIVERED"⟩

theorem claim_C3_witness :
    (qTruthy (jsOrStr queryC3.awb queryC3.airwayBill) || qTruthy queryC3.station
      || qTruthy queryC3.status) = true ∧
    applyFilters [snapC3] queryC3 = specFilterPresent queryC3 [snapC3] ∧
    applyFilters [snapC3] queryC3 =
      [{ snapC3 with cars := [{ carNumber := "R1001", type := "BOXCAR",
                                airwayBills := [awbC3Delivered] }] }] := by
  refine ⟨rfl, claim_C3 [snapC3] queryC3 rfl, ?_⟩
  rfl

/-- A snapshot with zero cars: the counterexample input for claim C9. -/
def carlessSnapshot : Snapshot :=
  { id := "T9", name := "Ghost Train 9", speedKmh := 50,
    route := ["LA", "KC"], fromStationCode := "LA", toStationCode := "KC",
    legProgress := 0, locLat := none, locLon := none, cars := [], lastUpdated := "t0" }

/-- Counterexample to claim C9 as stated: with every criterion absent, a
snapshot list containing a train with zero cars is NOT returned unchanged —
the `filteredCars.length === 0` check (server.js line 498) drops the train
even though no filtering occurred. -/
theorem claim_C9_counterexample :
    applyFilters [carlessSnapshot] emptyQuery = [] ∧
    applyFilters [carlessSnapshot] emptyQuery ≠ [carlessSnapshot] := by
  have h : applyFilters [carlessSnapshot] emptyQuery = [] := rfl
  refine ⟨h, ?_⟩
  rw [h]
  simp

theorem applyFiltersTrain_of_absent (q : Query) (s : Snapshot)
    (ha : qTruthy q.awb = false) (hab : qTruthy q.airwayBill = false)
    (hn : qTruthy q.trainName = false) (hc : qTruthy q.carNumber = false)
    (hs : qTruthy q.station = false) (hst : qTruthy q.status = false)
    (hcars : s.cars ≠ []) :
    applyFiltersTrain q s = some s := by
  have hor : jsOrStr q.awb q.airwayBill = q.airwayBill := by
    unfold jsOrStr
    rw [ha]
    rfl
  unfold applyFiltersTrain cargoStageFilter carStageFilter
  rw [hor]
  simp only [hn, hc, hab, hs, hst, Bool.false_and, Bool.false_or, Bool.or_false,
    Bool.false_eq_true, if_false]
  rw [if_neg (fun hz => hcars (List.length_eq_zero.mp hz))]

/-- Claim C9, amended: with every criterion field absent, `applyFilters`
returns the input snapshot list unchanged in content — provided every train
in the list has at least one car (which holds for every snapshot the
simulation produces, since `createInitialTrains` gives each train ≥ 5 cars
and cars are never removed); a zero-car train would be dropped
(`claim_C9_counterexample`). -/
theorem claim_C9_amended (snaps : List Snapshot) (q : Query)
    (ha : qTruthy q.awb = false) (hab : qTruthy q.airwayBill = false)
    (hn : qTruthy q.trainName = false) (hc : qTruthy q.carNumber = false)
    (hs : qTruthy q.station = false) (hst : qTruthy q.status = false)
    (hcars : ∀ s ∈ snaps, s.cars ≠ []) :
    applyFilters snaps q = snaps := by
  induction snaps with
  | nil => rfl
  | cons s rest ih =>
    unfold applyFilters
    rw [List.filterMap_cons,
      applyFiltersTrain_of_absent q s ha hab hn hc hs hst (hcars s (List.mem_cons_self s rest))]
    have := ih (fun x hx => hcars x (List.mem_cons_of_mem s hx))
    unfold applyFilters at this
    rw [this]

theorem claim_C9_witness :
    applyFilters [snapC3] emptyQuery = [snapC3] := by
  have h : ∀ s ∈ [snapC3], s.cars ≠ [] := by
    intro s hs
    rw [List.mem_singleton.mp hs]
    simp [snapC3]
  exact claim_C9_amended [snapC3] emptyQuery rfl rfl rfl rfl rfl rfl h

theorem carStageFilter_mem (q : Query) (cars : List Car) (c : Car)
    (h : c ∈ carStageFilter q cars) : c ∈ cars := by
  unfold carStageFilter at h
  split_ifs at h with hq
  · exact (List.mem_filter.mp h).1
  · exact h

theorem awbPassesB_station_false (af st stt : Option String) (a : Awb)
    (h : qTruthy st = true)
    (h1 : matchesString a.originStationCode (qVal st) = false)
    (h2 : matchesString a.destStationCode (qVal st) = false)
    (h3 : matchesString (a.offloadedAtStationCode.getD "") (qVal st) = false) :
    awbPassesB af st stt a = false := by
  unfold awbPassesB
  rw [h, h1, h2, h3]
  simp

theorem filterCarsCargo_station_nil (af stt : Option String) (q : Query) (cars : List Car)
    (hst : qTruthy q.station = true)
    (hmiss : ∀ c ∈ cars, ∀ a ∈ c.airwayBills,
      matchesString a.originStationCode (qVal q.station) = false ∧
      matchesString a.destStationCode (qVal q.station) = false ∧
      matchesString (a.offloadedAtStationCode.getD "") (qVal q.station) = false) :
    filterCarsCargo af q.station stt cars = [] := by
  unfold filterCarsCargo
  rw [List.filterMap_eq_nil_iff]
  intro car hcar
  have hfa : car.airwayBills.filter (fun a => awbPassesB af q.station stt a) = [] := by
    rw [List.filter_eq_nil_iff]
    intro a ha
    obtain ⟨h1, h2, h3⟩ := hmiss car hcar a ha
    rw [awbPassesB_station_false af q.station stt a hst h1 h2 h3]
    exact Bool.false_ne_true
  simp [hfa]

/-- Claim C10: the station matcher only ever consults the cargo items' station
codes (origin, destination, offload — with a null offload read as the empty
string), never station names or cities: when the station parameter is
present and is not a case-insensitive substring of any of those codes on any
cargo item of any snapshot, `applyFilters` returns the empty train list. -/
theorem claim_C10 (snaps : List Snapshot) (q : Query)
    (hst : qTruthy q.station = true)
    (hmiss : ∀ s ∈ snaps, ∀ c ∈ s.cars, ∀ a ∈ c.airwayBills,
      matchesString a.originStationCode (qVal q.station) = false ∧
      matchesString a.destStationCode (qVal q.station) = false ∧
      matchesString (a.offloadedAtStationCode.getD "") (qVal q.station) = false) :
    applyFilters snaps q = [] := by
  unfold applyFilters
  rw [List.filterMap_eq_nil_iff]
  intro s hs
  have hempty : cargoStageFilter q (carStageFilter q s.cars) = [] := by
    unfold cargoStageFilter
    rw [if_pos (by rw [hst]; simp)]
    exact filterCarsCargo_station_nil _ _ q _ hst
      (fun c hc => hmiss s hs c (carStageFilter_mem q s.cars c hc))
  unfold applyFiltersTrain
  split_ifs with h1 h2
  · rfl
  · rfl
  · exact absurd (by rw [hempty]; rfl) h2

/-- The station query `"Chicago Rail Hub"` — a station's full display name. -/
def queryC10 : Query := ⟨none, none, none, none, some "Chicago Rail Hub", none⟩

theorem claim_C10_witness :
    qTruthy queryC10.station = true ∧ applyFilters [snapC3] queryC10 = [] := by
  exact ⟨rfl, claim_C10 [snapC3] queryC10 rfl (by decide)⟩

/-! ### Cargo generation: origin/destination placement (claim C4) -/

/-- A config with one simulated hour per tick
(`TICK_MS=3600000, TIME_SCALE=1`). -/
def cfgUnitHour : Config :=
  { tickMs := 3600000, timeScale := 1, maxAwbsPerCar := 5,
    minDwellMinutes := 5, maxDwellMinutes := 20 }

/-- A train one tick away from arriving at KC, carrying one empty car;
the random source always generates a new bill with `rDest` draw 0, which
makes `randInt(currentLegIndex + 1, route.length - 1)` return
`currentLegIndex + 1` — the arrival station's own index. -/
def trainC4 : Train :=
  { id := "T1", name := "Heartland Cargo 1", route := ["LA", "KC", "CHI", "NYC"],
    currentLegIndex := 0, legProgress := 9/10, speedKmh := 60, displaySpeedKmh := 60,
    dwellRemainingHours := 0,
    cars := [{ carNumber := "R1001", type := "BOXCAR", airwayBills := [] }],
    lastUpdated := none }

def genC4Rand : TrainTickRand :=
  { car := fun _ => { genNew := true, rAwbIdx := 50, rDest := 0, rPieces := 0, rWeight := 0 },
    rDwell := 0, tweak := false, rDelta := 0 }

/-- Counterexample to claim C4 as stated: a dynamically generated cargo item
whose destination station code EQUALS its origin station code.  On arrival at
KC (`currentLegIndex = 0`), the new bill's destination index is drawn from
`randInt(1, 3)` (server.js line 300), which includes index 1 — the arrival
station itself — so origin = destination = "KC". -/
theorem claim_C4_counterexample :
    ((awbAt (updateTrain cfgUnitHour (constDist 100) "t1" genC4Rand trainC4) 0 0).map
      (fun a => (a.originStationCode, a.destStationCode))) = some ("KC", "KC") := by
  have hlen : ¬ trainC4.route.length < 2 := by decide
  have hdw : ¬ 0 < trainC4.dwellRemainingHours := by norm_num [trainC4]
  have hroll : rollLeg trainC4 = trainC4 := by
    unfold rollLeg
    rw [if_neg (by norm_num [trainC4])]
  have hf : stationByCode ((rollLeg trainC4).route.getD (rollLeg trainC4).currentLegIndex "")
      = some stationLA := by rw [hroll]; rfl
  have hg : stationByCode ((rollLeg trainC4).route.getD ((rollLeg trainC4).currentLegIndex + 1) "")
      = some stationKC := by rw [hroll]; rfl
  rw [updateTrain_of_move cfgUnitHour (constDist 100) "t1" genC4Rand trainC4
    stationLA stationKC hlen hdw hf hg, hroll]
  unfold moveTrain
  rw [if_pos (by norm_num [trainC4, cfgUnitHour, Config.dtHours, constDist])]
  rfl

/-- A random source for `createAirwayBillsForCar` with all draws 0. -/
def zeroCarInitRand : CarInitRand :=
  { rCount := 0, rOrigin := fun _ => 0, rDest := fun _ => 0,
    rPieces := fun _ => 0, rWeight := fun _ => 0 }

/-- Claim C4, amended.  (a) Items created at train initialization: origin and
destination sit at route indices `i < j`, so the destination is strictly
later than the origin, and on a duplicate-free route the two codes differ.
(b) Dynamically generated items: the origin is the arrival station and the
destination sits at a route index `j` with `currentLegIndex + 1 ≤ j ≤
route.length - 1` — at or after the arrival station (index
`currentLegIndex + 1`), so the destination may coincide with the origin
(`claim_C4_counterexample`), contrary to the claim's "strictly after" /
"differs from origin". -/
theorem claim_C4_amended :
    (∀ (cfg : Config) (rnd : CarInitRand) (route : List String) (ti ci : Nat) (now : String),
      2 ≤ route.length →
      ∀ a ∈ createAirwayBillsForCar cfg rnd route ti ci now,
        ∃ i j, i < j ∧ j < route.length ∧
          a.originStationCode = route.getD i "" ∧ a.destStationCode = route.getD j "" ∧
          (route.Nodup → a.originStationCode ≠ a.destStationCode)) ∧
    (∀ (trainId : String) (route : List String) (legIdx : Nat) (arr now : String)
        (cr : CarTickRand),
      legIdx + 2 ≤ route.length →
      (newArrivalAwb trainId route legIdx arr now cr).originStationCode = arr ∧
      ∃ j, legIdx + 1 ≤ j ∧ j < route.length ∧
        (newArrivalAwb trainId route legIdx arr now cr).destStationCode = route.getD j "") := by
  constructor
  · intro cfg rnd route ti ci now hlen a ha
    simp only [createAirwayBillsForCar, List.mem_map, List.mem_range] at ha
    obtain ⟨i, hi, rfl⟩ := ha
    have ho : randIntN 0 (route.length - 2) (rnd.rOrigin i) ≤ route.length - 2 :=
      randIntN_le_hi _ _ _ (Nat.zero_le _)
    have hd1 : randIntN 0 (route.length - 2) (rnd.rOrigin i) + 1 ≤
        randIntN (randIntN 0 (route.length - 2) (rnd.rOrigin i) + 1) (route.length - 1)
          (rnd.rDest i) :=
      randIntN_lo_le _ _ _
    have hd2 : randIntN (randIntN 0 (route.length - 2) (rnd.rOrigin i) + 1) (route.length - 1)
        (rnd.rDest i) ≤ route.length - 1 :=
      randIntN_le_hi _ _ _ (by omega)
    refine ⟨randIntN 0 (route.length - 2) (rnd.rOrigin i),
      randIntN (randIntN 0 (route.length - 2) (rnd.rOrigin i) + 1) (route.length - 1)
        (rnd.rDest i), by omega, by omega, rfl, rfl, ?_⟩
    intro hnd heq
    rw [List.getD_eq_getElem route "" (by omega), List.getD_eq_getElem route "" (by omega)] at heq
    have := (List.Nodup.getElem_inj_iff hnd).mp heq
    omega
  · intro trainId route legIdx arr now cr hlen
    refine ⟨rfl, randIntN (legIdx + 1) (route.length - 1) cr.rDest,
      randIntN_lo_le _ _ _, ?_, rfl⟩
    have := randIntN_le_hi (legIdx + 1) (route.length - 1) cr.rDest (by omega)
    omega

theorem claim_C4_amended_witness :
    (2 ≤ (["LA", "KC", "CHI", "NYC"] : List String).length) ∧
    (∀ a ∈ createAirwayBillsForCar defaultConfig zeroCarInitRand
        ["LA", "KC", "CHI", "NYC"] 0 0 "t0",
      ∃ i j, i < j ∧ j < (["LA", "KC", "CHI", "NYC"] : List String).length ∧
        a.originStationCode = (["LA", "KC", "CHI", "NYC"] : List String).getD i "" ∧
        a.destStationCode = (["LA", "KC", "CHI", "NYC"] : List String).getD j "" ∧
        ((["LA", "KC", "CHI", "NYC"] : List String).Nodup →
          a.originStationCode ≠ a.destStationCode)) ∧
    ((newArrivalAwb "T1" ["LA", "KC", "CHI", "NYC"] 0 "KC" "t0" zeroCarTickRand).originStationCode
        = "KC" ∧
      ∃ j, 0 + 1 ≤ j ∧ j < (["LA", "KC", "CHI", "NYC"] : List String).length ∧
        (newArrivalAwb "T1" ["LA", "KC", "CHI", "NYC"] 0 "KC" "t0"
            zeroCarTickRand).destStationCode
          = (["LA", "KC", "CHI", "NYC"] : List String).getD j "") :=
  ⟨by decide,
   claim_C4_amended.1 defaultConfig zeroCarInitRand ["LA", "KC", "CHI", "NYC"] 0 0 "t0" (by decide),
   claim_C4_amended.2 "T1" ["LA", "KC", "CHI", "NYC"] 0 "KC" "t0" zeroCarTickRand (by decide)⟩

/-! ### AWB number uniqueness (claim C7) -/

/-- A train one tick away from arriving at KC with TWO empty cars; on the
arrival tick, each car independently rolls the 0.35 generation check and the
`randInt(100, 999)` serial draw — here both succeed with the same draw. -/
def trainC7 : Train :=
  { id := "T1", name := "Continental Freight 1", route := ["LA", "KC", "CHI", "NYC"],
    currentLegIndex := 0, legProgress := 9/10, speedKmh := 60, displaySpeedKmh := 60,
    dwellRemainingHours := 0,
    cars := [{ carNumber := "R1001", type := "BOXCAR", airwayBills := [] },
             { carNumber := "R1002", type := "TANK", airwayBills := [] }],
    lastUpdated := none }

def genC7Rand : TrainTickRand :=
  { car := fun _ => { genNew := true, rAwbIdx := 50, rDest := 1, rPieces := 0, rWeight := 0 },
    rDwell := 0, tweak := false, rDelta := 0 }

/-- Counterexample to claim C7 as stated: on one arrival tick, two distinct
cargo items (one per car) are created with the SAME `awbNumber`.  The dynamic
generation path (server.js lines 292-297) always passes `carIndex = 0` and a
`randInt(100, 999)` serial to `generateAwbNumber`, so two cars drawing the
same serial produce identical numbers (`"AWB-110151"` here). -/
theorem claim_C7_counterexample :
    ((awbAt (updateTrain cfgUnitHour (constDist 100) "t1" genC7Rand trainC7) 0 0).map
      Awb.awbNumber = some "AWB-110151") ∧
    ((awbAt (updateTrain cfgUnitHour (constDist 100) "t1" genC7Rand trainC7) 1 0).map
      Awb.awbNumber = some "AWB-110151") := by
  have hlen : ¬ trainC7.route.length < 2 := by decide
  have hdw : ¬ 0 < trainC7.dwellRemainingHours := by norm_num [trainC7]
  have hroll : rollLeg trainC7 = trainC7 := by
    unfold rollLeg
    rw [if_neg (by norm_num [trainC7])]
  have hf : stationByCode ((rollLeg trainC7).route.getD (rollLeg trainC7).currentLegIndex "")
      = some stationLA := by rw [hroll]; rfl
  have hg : stationByCode ((rollLeg trainC7).route.getD ((rollLeg trainC7).currentLegIndex + 1) "")
      = some stationKC := by rw [hroll]; rfl
  rw [updateTrain_of_move cfgUnitHour (constDist 100) "t1" genC7Rand trainC7
    stationLA stationKC hlen hdw hf hg, hroll]
  unfold moveTrain
  rw [if_pos (by norm_num [trainC7, cfgUnitHour, Config.dtHours, constDist])]
  exact ⟨rfl, rfl⟩

theorem append_ne_of_last_ne (a b s1 s2 : String) (x y : Char)
    (hx : s1.data.getLast? = some x) (hy : s2.data.getLast? = some y)
    (hxy : x ≠ y) : a ++ s1 ≠ b ++ s2 := by
  intro he
  have hd : (a ++ s1).data.getLast? = (b ++ s2).data.getLast? := by rw [he]
  rw [String.data_append, String.data_append, List.getLast?_append, List.getLast?_append,
    hx, hy] at hd
  exact hxy (Option.some.inj hd)

/-- Claim C7, amended: `awbNumber` values are NOT unique per process — two
dynamically generated items can collide (`claim_C7_counterexample`), and for
configurations with ≥ 11 trains even initial items of different trains can
(`generateAwbNumber 0 10 k = generateAwbNumber 10 0 k`).  What does hold:
within one car, the items created at initialization carry pairwise distinct
numbers (their `String(i+1).padStart(4)` suffixes differ; the default
`MAX_AWBS_PER_CAR = 5 ≤ 9` keeps the indices below 9). -/
theorem claim_C7_amended (t c i j : Nat) (hi : i < 9) (hj : j < 9) (hne : i ≠ j) :
    generateAwbNumber t c i ≠ generateAwbNumber t c j := by
  unfold generateAwbNumber
  interval_cases i <;> interval_cases j <;>
    first
      | exact absurd rfl hne
      | exact append_ne_of_last_ne _ _ _ _ _ _ rfl rfl (by decide)

theorem claim_C7_amended_witness :
    ((0 : Nat) < 9 ∧ (1 : Nat) < 9 ∧ (0 : Nat) ≠ 1) ∧
    generateAwbNumber 3 7 0 ≠ generateAwbNumber 3 7 1 :=
  ⟨by decide, claim_C7_amended 3 7 0 1 (by decide) (by decide) (by decide)⟩

/-! ### The simulation clock runs once per subscriber, not once per tick
(claim C5) -/

/-- A train at the start of the LA→KC leg; with leg distance 100 km, speed
60 km/h and one simulated hour per tick, each `updateTrains` call adds 0.6 to
its leg progress. -/
def trainC5 : Train :=
  { id := "T1", name := "Pacific Runner 1", route := ["LA", "KC", "CHI", "NYC"],
    currentLegIndex := 0, legProgress := 0, speedKmh := 60, displaySpeedKmh := 60,
    dwellRemainingHours := 0, cars := [], lastUpdated := none }

/-- The state of `trainC5` after ONE `updateTrains` call. -/
def trainC5after : Train :=
  { id := "T1", name := "Pacific Runner 1", route := ["LA", "KC", "CHI", "NYC"],
    currentLegIndex := 0, legProgress := 3/5, speedKmh := 60, displaySpeedKmh := 60,
    dwellRemainingHours := 0, cars := [], lastUpdated := some "a" }

theorem trainC5_step1 :
    updateTrain cfgUnitHour (constDist 100) "a" zeroTrainTickRand trainC5 = trainC5after := by
  have hlen : ¬ trainC5.route.length < 2 := by decide
  have hdw : ¬ 0 < trainC5.dwellRemainingHours := by norm_num [trainC5]
  have hroll : rollLeg trainC5 = trainC5 := by
    unfold rollLeg
    rw [if_neg (by norm_num [trainC5])]
  have hf : stationByCode ((rollLeg trainC5).route.getD (rollLeg trainC5).currentLegIndex "")
      = some stationLA := by rw [hroll]; rfl
  have hg : stationByCode ((rollLeg trainC5).route.getD ((rollLeg trainC5).currentLegIndex + 1) "")
      = some stationKC := by rw [hroll]; rfl
  rw [updateTrain_of_move cfgUnitHour (constDist 100) "a" zeroTrainTickRand trainC5
    stationLA stationKC hlen hdw hf hg, hroll]
  unfold moveTrain
  rw [if_neg (by norm_num [trainC5, cfgUnitHour, Config.dtHours, constDist])]
  simp only [trainC5, trainC5after, cfgUnitHour, Config.dtHours, constDist,
    zeroTrainTickRand, Train.mk.injEq, List.map_nil]
  norm_num

theorem trainC5_step2 :
    (updateTrain cfgUnitHour (constDist 100) "b" zeroTrainTickRand trainC5after).legProgress
      = 1 := by
  have hlen : ¬ trainC5after.route.length < 2 := by decide
  have hdw : ¬ 0 < trainC5after.dwellRemainingHours := by norm_num [trainC5after]
  have hroll : rollLeg trainC5after = trainC5after := by
    unfold rollLeg
    rw [if_neg (by norm_num [trainC5after])]
  have hf : stationByCode
        ((rollLeg trainC5after).route.getD (rollLeg trainC5after).currentLegIndex "")
      = some stationLA := by rw [hroll]; rfl
  have hg : stationByCode
        ((rollLeg trainC5after).route.getD ((rollLeg trainC5after).currentLegIndex + 1) "")
      = some stationKC := by rw [hroll]; rfl
  rw [updateTrain_of_move cfgUnitHour (constDist 100) "b" zeroTrainTickRand trainC5after
    stationLA stationKC hlen hdw hf hg, hroll]
  unfold moveTrain
  rw [if_pos (by norm_num [trainC5after, cfgUnitHour, Config.dtHours, constDist])]

/-- Claim C5 is FALSE of the code: `sendUpdate` (server.js line 527) calls
`updateTrains()` inside every subscriber's own `setInterval`, so during one
`TICK_MS` interval with two connected subscribers the shared fleet advances
TWICE — here all the way to arrival (`legProgress = 1`) — while a single
shared clock step would advance it once (`legProgress = 3/5`).  The two
payloads within the round are also projected from different states. -/
theorem claim_C5_code_bug :
    ((sseIntervalRound cfgUnitHour (constDist 100)
        [("a", fun _ => zeroTrainTickRand), ("b", fun _ => zeroTrainTickRand)]
        [trainC5]).map Train.legProgress = [1]) ∧
    ((updateTrains cfgUnitHour (constDist 100) "a" (fun _ => zeroTrainTickRand)
        [trainC5]).map Train.legProgress = [3/5]) ∧
    sseIntervalRound cfgUnitHour (constDist 100)
        [("a", fun _ => zeroTrainTickRand), ("b", fun _ => zeroTrainTickRand)] [trainC5] ≠
      updateTrains cfgUnitHour (constDist 100) "a" (fun _ => zeroTrainTickRand) [trainC5] := by
  have hone : updateTrains cfgUnitHour (constDist 100) "a" (fun _ => zeroTrainTickRand) [trainC5]
      = [trainC5after] := by
    unfold updateTrains
    rw [mapIdxFrom_cons, mapIdxFrom_nil, trainC5_step1]
  have htwo : sseIntervalRound cfgUnitHour (constDist 100)
      [("a", fun _ => zeroTrainTickRand), ("b", fun _ => zeroTrainTickRand)] [trainC5]
      = updateTrains cfgUnitHour (constDist 100) "b" (fun _ => zeroTrainTickRand)
          [trainC5after] := by
    unfold sseIntervalRound
    rw [List.foldl_cons, List.foldl_cons, List.foldl_nil, hone]
  have h1 : (sseIntervalRound cfgUnitHour (constDist 100)
      [("a", fun _ => zeroTrainTickRand), ("b", fun _ => zeroTrainTickRand)]
      [trainC5]).map Train.legProgress = [1] := by
    rw [htwo]
    unfold updateTrains
    rw [mapIdxFrom_cons, mapIdxFrom_nil, List.map_cons, List.map_nil, trainC5_step2]
  have h2 : (updateTrains cfgUnitHour (constDist 100) "a" (fun _ => zeroTrainTickRand)
      [trainC5]).map Train.legProgress = [3/5] := by
    rw [hone]
    norm_num [trainC5after]
  refine ⟨h1, h2, fun he => ?_⟩
  rw [he, h2] at h1
  norm_num at h1

/-! ### The LA→KC leg: numerical bounds on the haversine distance (claim C8) -/

/-- Rigorous bounds for the haversine tail: for any `A` in the interval the
LA→KC computation produces, `6371 · 2 · atan2 (√A) (√(1-A))` lies in
`(2121, 2207)` km. -/
theorem hav_core (A : ℝ) (hAl : 0.0278 < A) (hAu : A < 0.0291) :
    2121 < (if (6371 : ℝ) * (2 * atan2 (Real.sqrt A) (Real.sqrt (1 - A))) = 0 then 1
            else (6371 : ℝ) * (2 * atan2 (Real.sqrt A) (Real.sqrt (1 - A)))) ∧
    (if (6371 : ℝ) * (2 * atan2 (Real.sqrt A) (Real.sqrt (1 - A))) = 0 then 1
     else (6371 : ℝ) * (2 * atan2 (Real.sqrt A) (Real.sqrt (1 - A)))) < 2207 := by
  have hSl : (0.1667 : ℝ) < Real.sqrt A := (Real.lt_sqrt (by norm_num)).mpr (by nlinarith)
  have hSu : Real.sqrt A < 0.1706 := (Real.sqrt_lt' (by norm_num)).mpr (by nlinarith)
  have hTl : (0.985 : ℝ) < Real.sqrt (1 - A) := (Real.lt_sqrt (by norm_num)).mpr (by nlinarith)
  have hTu : Real.sqrt (1 - A) < 0.98605 := (Real.sqrt_lt' (by norm_num)).mpr (by nlinarith)
  have hTpos : 0 < Real.sqrt (1 - A) := by linarith
  have hat : atan2 (Real.sqrt A) (Real.sqrt (1 - A)) =
      Real.arctan (Real.sqrt A / Real.sqrt (1 - A)) := by
    unfold atan2
    rw [if_pos hTpos]
  have htl : (0.169 : ℝ) < Real.sqrt A / Real.sqrt (1 - A) := by
    rw [lt_div_iff₀ hTpos]
    nlinarith
  have htu : Real.sqrt A / Real.sqrt (1 - A) < 0.1732 := by
    rw [div_lt_iff₀ hTpos]
    nlinarith
  have htpos : (0 : ℝ) < Real.sqrt A / Real.sqrt (1 - A) := by linarith
  have harpos : 0 < Real.arctan (Real.sqrt A / Real.sqrt (1 - A)) := by
    simpa using Real.arctan_strictMono htpos
  have haru : Real.arctan (Real.sqrt A / Real.sqrt (1 - A)) < 0.1732 := by
    have h1 := Real.lt_tan harpos (Real.arctan_lt_pi_div_two _)
    rw [Real.tan_arctan] at h1
    linarith
  have hsq1t : Real.sqrt (1 + (Real.sqrt A / Real.sqrt (1 - A)) ^ 2) < 1.0149 :=
    (Real.sqrt_lt' (by norm_num)).mpr (by nlinarith)
  have hsq1tpos : 0 < Real.sqrt (1 + (Real.sqrt A / Real.sqrt (1 - A)) ^ 2) :=
    Real.sqrt_pos.mpr (by positivity)
  have harl : (0.1665 : ℝ) < Real.arctan (Real.sqrt A / Real.sqrt (1 - A)) := by
    have hsin : Real.sin (Real.arctan (Real.sqrt A / Real.sqrt (1 - A))) ≤
        Real.arctan (Real.sqrt A / Real.sqrt (1 - A)) := Real.sin_le (le_of_lt harpos)
    rw [Real.sin_arctan] at hsin
    have hdiv : (0.1665 : ℝ) < (Real.sqrt A / Real.sqrt (1 - A)) /
        Real.sqrt (1 + (Real.sqrt A / Real.sqrt (1 - A)) ^ 2) := by
      rw [lt_div_iff₀ hsq1tpos]
      nlinarith
    linarith
  rw [hat]
  have hcpos : (0 : ℝ) < 6371 * (2 * Real.arctan (Real.sqrt A / Real.sqrt (1 - A))) := by
    linarith
  rw [if_neg (ne_of_gt hcpos)]
  constructor <;> nlinarith

set_option maxHeartbeats 2000000 in
/-- Rigorous bounds on the haversine `a` value for the LA→KC coordinates
(34.033, -118.238) → (39.104, -94.598): `a ∈ (0.0278, 0.0291)`. -/
theorem hav_A_bounds :
    (0.0278 : ℝ) < Real.sin (toRad 5.071 / 2) * Real.sin (toRad 5.071 / 2)
        + Real.cos (toRad 34.033) * Real.cos (toRad 39.104)
          * Real.sin (toRad 23.64 / 2) * Real.sin (toRad 23.64 / 2) ∧
    Real.sin (toRad 5.071 / 2) * Real.sin (toRad 5.071 / 2)
        + Real.cos (toRad 34.033) * Real.cos (toRad 39.104)
          * Real.sin (toRad 23.64 / 2) * Real.sin (toRad 23.64 / 2) < 0.0291 := by
  have hπl : (3.141592 : ℝ) < Real.pi := Real.pi_gt_d6
  have hπu : Real.pi < 3.141593 := Real.pi_lt_d6
  have hx1l : (0.044252 : ℝ) < toRad 5.071 / 2 := by unfold toRad; linarith
  have hx1u : toRad 5.071 / 2 < 0.044253 := by unfold toRad; linarith
  have hx2l : (0.2062978 : ℝ) < toRad 23.64 / 2 := by unfold toRad; linarith
  have hx2u : toRad 23.64 / 2 < 0.2062980 := by unfold toRad; linarith
  have hL1l : (0.5939877 : ℝ) < toRad 34.033 := by unfold toRad; linarith
  have hL1u : toRad 34.033 < 0.5939880 := by unfold toRad; linarith
  have hL2l : (0.6824934 : ℝ) < toRad 39.104 := by unfold toRad; linarith
  have hL2u : toRad 39.104 < 0.6824937 := by unfold toRad; linarith
  have hx1pos : (0 : ℝ) < toRad 5.071 / 2 := by linarith
  have hx2pos : (0 : ℝ) < toRad 23.64 / 2 := by linarith
  have hL1pos : (0 : ℝ) < toRad 34.033 := by linarith
  have hL2pos : (0 : ℝ) < toRad 39.104 := by linarith
  -- sin of the half-dLat
  have hs1u : Real.sin (toRad 5.071 / 2) < 0.044253 := lt_trans (Real.sin_lt hx1pos) hx1u
  have hcube1 : (toRad 5.071 / 2) ^ 3 < 0.0000867 := by
    have h3 : (toRad 5.071 / 2) ^ 3 < (0.044253 : ℝ) ^ 3 :=
      pow_lt_pow_left₀ hx1u (le_of_lt hx1pos) (by norm_num)
    have hn : ((0.044253 : ℝ)) ^ 3 < 0.0000867 := by norm_num
    linarith
  have hs1l : (0.04423 : ℝ) < Real.sin (toRad 5.071 / 2) := by
    have h := Real.sin_gt_sub_cube hx1pos (by linarith)
    linarith
  -- sin of the half-dLon, via the quartic Taylor bound
  have habs2 : |toRad 23.64 / 2| ≤ 1 := by rw [abs_of_pos hx2pos]; linarith
  have hb2 := Real.sin_bound habs2
  rw [abs_of_pos hx2pos] at hb2
  obtain ⟨hb2l, hb2u⟩ := abs_le.mp hb2
  have hcube2u : (toRad 23.64 / 2) ^ 3 < 0.0087799 := by
    have h3 : (toRad 23.64 / 2) ^ 3 < (0.2062980 : ℝ) ^ 3 :=
      pow_lt_pow_left₀ hx2u (le_of_lt hx2pos) (by norm_num)
    have hn : ((0.2062980 : ℝ)) ^ 3 < 0.0087799 := by norm_num
    linarith
  have hcube2l : (0.0087796 : ℝ) < (toRad 23.64 / 2) ^ 3 := by
    have h3 : (0.2062978 : ℝ) ^ 3 < (toRad 23.64 / 2) ^ 3 :=
      pow_lt_pow_left₀ hx2l (by norm_num) (by norm_num)
    have hn : (0.0087796 : ℝ) < (0.2062978 : ℝ) ^ 3 := by norm_num
    linarith
  have hquart2pos : (0 : ℝ) ≤ (toRad 23.64 / 2) ^ 4 := by positivity
  have hquart2 : (toRad 23.64 / 2) ^ 4 < 0.0018114 := by
    have h4 : (toRad 23.64 / 2) ^ 4 < (0.2062980 : ℝ) ^ 4 :=
      pow_lt_pow_left₀ hx2u (le_of_lt hx2pos) (by norm_num)
    have hn : ((0.2062980 : ℝ)) ^ 4 < 0.0018114 := by norm_num
    linarith
  have hs2u : Real.sin (toRad 23.64 / 2) < 0.204930 := by linarith
  have hs2l : (0.204739 : ℝ) < Real.sin (toRad 23.64 / 2) := by linarith
  -- cos of the two latitudes, via the quartic Taylor bound
  have habsL1 : |toRad 34.033| ≤ 1 := by rw [abs_of_pos hL1pos]; linarith
  have hcb1 := Real.cos_bound habsL1
  rw [abs_of_pos hL1pos] at hcb1
  obtain ⟨hcb1l, hcb1u⟩ := abs_le.mp hcb1
  have hsq1u : (toRad 34.033) ^ 2 < 0.3528218 := by
    have h2 : (toRad 34.033) ^ 2 < (0.5939880 : ℝ) ^ 2 :=
      pow_lt_pow_left₀ hL1u (le_of_lt hL1pos) (by norm_num)
    have hn : ((0.5939880 : ℝ)) ^ 2 < 0.3528218 := by norm_num
    linarith
  have hsq1l : (0.3528213 : ℝ) < (toRad 34.033) ^ 2 := by
    have h2 : (0.5939877 : ℝ) ^ 2 < (toRad 34.033) ^ 2 :=
      pow_lt_pow_left₀ hL1l (by norm_num) (by norm_num)
    have hn : (0.3528213 : ℝ) < (0.5939877 : ℝ) ^ 2 := by norm_num
    linarith
  have hq1pos : (0 : ℝ) ≤ (toRad 34.033) ^ 4 := by positivity
  have hquart1 : (toRad 34.033) ^ 4 < 0.1244834 := by
    have h4 : (toRad 34.033) ^ 4 < (0.5939880 : ℝ) ^ 4 :=
      pow_lt_pow_left₀ hL1u (le_of_lt hL1pos) (by norm_num)
    have hn : ((0.5939880 : ℝ)) ^ 4 < 0.1244834 := by norm_num
    linarith
  have hC1u : Real.cos (toRad 34.033) < 0.830073 := by linarith
  have hC1l : (0.817105 : ℝ) < Real.cos (toRad 34.033) := by linarith
  have habsL2 : |toRad 39.104| ≤ 1 := by rw [abs_of_pos hL2pos]; linarith
  have hcb2 := Real.cos_bound habsL2
  rw [abs_of_pos hL2pos] at hcb2
  obtain ⟨hcb2l, hcb2u⟩ := abs_le.mp hcb2
  have hsq2u : (toRad 39.104) ^ 2 < 0.4657977 := by
    have h2 : (toRad 39.104) ^ 2 < (0.6824937 : ℝ) ^ 2 :=
      pow_lt_pow_left₀ hL2u (le_of_lt hL2pos) (by norm_num)
    have hn : ((0.6824937 : ℝ)) ^ 2 < 0.4657977 := by norm_num
    linarith
  have hsq2l : (0.4657971 : ℝ) < (toRad 39.104) ^ 2 := by
    have h2 : (0.6824934 : ℝ) ^ 2 < (toRad 39.104) ^ 2 :=
      pow_lt_pow_left₀ hL2l (by norm_num) (by norm_num)
    have hn : (0.4657971 : ℝ) < (0.6824934 : ℝ) ^ 2 := by norm_num
    linarith
  have hq2pos : (0 : ℝ) ≤ (toRad 39.104) ^ 4 := by positivity
  have hquart2b : (toRad 39.104) ^ 4 < 0.2169676 := by
    have h4 : (toRad 39.104) ^ 4 < (0.6824937 : ℝ) ^ 4 :=
      pow_lt_pow_left₀ hL2u (le_of_lt hL2pos) (by norm_num)
    have hn : ((0.6824937 : ℝ)) ^ 4 < 0.2169676 := by norm_num
    linarith
  have hC2u : Real.cos (toRad 39.104) < 0.778402 := by linarith
  have hC2l : (0.755800 : ℝ) < Real.cos (toRad 39.104) := by linarith
  -- assemble the bounds on a
  have hs1sql : (0.04423 * 0.04423 : ℝ) <
      Real.sin (toRad 5.071 / 2) * Real.sin (toRad 5.071 / 2) :=
    mul_lt_mul'' hs1l hs1l (by norm_num) (by norm_num)
  have hs1squ : Real.sin (toRad 5.071 / 2) * Real.sin (toRad 5.071 / 2) <
      (0.044253 * 0.044253 : ℝ) :=
    mul_lt_mul'' hs1u hs1u (by linarith) (by linarith)
  have hs2sql : (0.204739 * 0.204739 : ℝ) <
      Real.sin (toRad 23.64 / 2) * Real.sin (toRad 23.64 / 2) :=
    mul_lt_mul'' hs2l hs2l (by norm_num) (by norm_num)
  have hs2squ : Real.sin (toRad 23.64 / 2) * Real.sin (toRad 23.64 / 2) <
      (0.204930 * 0.204930 : ℝ) :=
    mul_lt_mul'' hs2u hs2u (by linarith) (by linarith)
  have hCCl : (0.817105 * 0.755800 : ℝ) <
      Real.cos (toRad 34.033) * Real.cos (toRad 39.104) :=
    mul_lt_mul'' hC1l hC2l (by norm_num) (by norm_num)
  have hCCu : Real.cos (toRad 34.033) * Real.cos (toRad 39.104) <
      (0.830073 * 0.778402 : ℝ) :=
    mul_lt_mul'' hC1u hC2u (by linarith) (by linarith)
  have hterml : (0.617566 * 0.0419180 : ℝ) <
      (Real.cos (toRad 34.033) * Real.cos (toRad 39.104))
        * (Real.sin (toRad 23.64 / 2) * Real.sin (toRad 23.64 / 2)) :=
    mul_lt_mul'' (by linarith) (by linarith) (by norm_num) (by norm_num)
  have htermu : (Real.cos (toRad 34.033) * Real.cos (toRad 39.104))
        * (Real.sin (toRad 23.64 / 2) * Real.sin (toRad 23.64 / 2)) <
      (0.646132 * 0.0419964 : ℝ) :=
    mul_lt_mul'' (by linarith) (by linarith) (by linarith) (by linarith)
  have hassoc : (Real.cos (toRad 34.033) * Real.cos (toRad 39.104))
        * (Real.sin (toRad 23.64 / 2) * Real.sin (toRad 23.64 / 2)) =
      Real.cos (toRad 34.033) * Real.cos (toRad 39.104)
        * Real.sin (toRad 23.64 / 2) * Real.sin (toRad 23.64 / 2) := by ring
  rw [hassoc] at hterml htermu
  constructor <;> linarith

/-- The LA→KC haversine distance lies in `(2121, 2207)` km (its float value is
≈ 2178.4 km). -/
theorem hav_LA_KC_bounds :
    2121 < haversineKm 34.033 (-118.238) 39.104 (-94.598) ∧
    haversineKm 34.033 (-118.238) 39.104 (-94.598) < 2207 := by
  have hA := hav_A_bounds
  have h := hav_core _ hA.1 hA.2
  simp only [haversineKm]
  rw [show ((39.104 : ℝ) - 34.033) = 5.071 by norm_num,
    show ((-94.598 : ℝ) - -118.238) = 23.64 by norm_num]
  exact h

/-- One simulated tick per index applied to a single train, with the `i`-th
tick using timestamp `nows i` and random draws `rnds i`. -/
def iterTicks (cfg : Config) (dist : Station → Station → ℚ) (nows : Nat → String)
    (rnds : Nat → TrainTickRand) : Nat → Train → Train
  | 0, t => t
  | k + 1, t => updateTrain cfg dist (nows k) (rnds k) (iterTicks cfg dist nows rnds k t)

theorem rollLeg_of_lt {t : Train} (h : ¬ 1 ≤ t.legProgress) : rollLeg t = t := by
  unfold rollLeg
  rw [if_neg h]

/-- The claim-C8 scenario train: route `["LA","KC","CHI","NYC"]`, speed
60 km/h, starting at `currentLegIndex = 0`, `legProgress = 0`. -/
def trainC8 : Train :=
  { id := "T1", name := "Pacific Runner 1", route := ["LA", "KC", "CHI", "NYC"],
    currentLegIndex := 0, legProgress := 0, speedKmh := 60, displaySpeedKmh := 60,
    dwellRemainingHours := 0, cars := [], lastUpdated := none }

theorem c8_transit (d : ℚ) (hd1 : 2121 < d)
    (nows : Nat → String) (rnds : Nat → TrainTickRand) (htw : ∀ i, (rnds i).tweak = false) :
    ∀ k : Nat, (k : ℚ) * (60 / d) < 1 →
      (iterTicks cfgUnitHour (constDist d) nows rnds k trainC8).legProgress
          = (k : ℚ) * (60 / d) ∧
      (iterTicks cfgUnitHour (constDist d) nows rnds k trainC8).currentLegIndex = 0 ∧
      (iterTicks cfgUnitHour (constDist d) nows rnds k trainC8).speedKmh = 60 ∧
      (iterTicks cfgUnitHour (constDist d) nows rnds k trainC8).dwellRemainingHours = 0 ∧
      (iterTicks cfgUnitHour (constDist d) nows rnds k trainC8).route
          = ["LA", "KC", "CHI", "NYC"] := by
  have hdpos : (0 : ℚ) < d := by linarith
  have h60 : (0 : ℚ) < 60 / d := by positivity
  intro k
  induction k with
  | zero =>
    intro _
    refine ⟨?_, rfl, rfl, rfl, rfl⟩
    simp [iterTicks, trainC8]
  | succ k ih =>
    intro hk1
    have hcast : ((k + 1 : ℕ) : ℚ) = (k : ℚ) + 1 := by push_cast; ring
    have hsplit : ((k : ℚ) + 1) * (60 / d) = (k : ℚ) * (60 / d) + 60 * 1 / d := by ring
    have hstep : (k : ℚ) * (60 / d) < 1 := by
      rw [hcast, hsplit] at hk1
      have : (0 : ℚ) < 60 * 1 / d := by positivity
      linarith
    obtain ⟨hp, hidx, hsp, hdw, hrt⟩ := ih hstep
    have hlen : ¬ (iterTicks cfgUnitHour (constDist d) nows rnds k trainC8).route.length < 2 := by
      rw [hrt]
      decide
    have hdwc : ¬ 0 < (iterTicks cfgUnitHour (constDist d) nows rnds k trainC8).dwellRemainingHours := by
      rw [hdw]
      norm_num
    have hnr : ¬ 1 ≤ (iterTicks cfgUnitHour (constDist d) nows rnds k trainC8).legProgress := by
      rw [hp]
      exact not_le.mpr hstep
    have hroll := rollLeg_of_lt hnr
    have hf : stationByCode
        ((rollLeg (iterTicks cfgUnitHour (constDist d) nows rnds k trainC8)).route.getD
          (rollLeg (iterTicks cfgUnitHour (constDist d) nows rnds k trainC8)).currentLegIndex "")
        = some stationLA := by
      rw [hroll, hrt, hidx]
      rfl
    have hg : stationByCode
        ((rollLeg (iterTicks cfgUnitHour (constDist d) nows rnds k trainC8)).route.getD
          ((rollLeg (iterTicks cfgUnitHour (constDist d) nows rnds k trainC8)).currentLegIndex + 1) "")
        = some stationKC := by
      rw [hroll, hrt, hidx]
      rfl
    have heq : iterTicks cfgUnitHour (constDist d) nows rnds (k + 1) trainC8 =
        updateTrain cfgUnitHour (constDist d) (nows k) (rnds k)
          (iterTicks cfgUnitHour (constDist d) nows rnds k trainC8) := rfl
    have hdt : cfgUnitHour.dtHours = 1 := by norm_num [cfgUnitHour, Config.dtHours]
    have hcond : ¬ 1 ≤ (iterTicks cfgUnitHour (constDist d) nows rnds k trainC8).legProgress +
        (iterTicks cfgUnitHour (constDist d) nows rnds k trainC8).speedKmh * cfgUnitHour.dtHours
          / constDist d stationLA stationKC := by
      rw [hp, hsp, hdt]
      show ¬ 1 ≤ (k : ℚ) * (60 / d) + 60 * 1 / d
      rw [← hsplit]
      rw [hcast] at hk1
      exact not_le.mpr hk1
    rw [heq, updateTrain_of_move _ _ _ _ _ stationLA stationKC hlen hdwc hf hg, hroll]
    unfold moveTrain
    rw [if_neg hcond]
    refine ⟨?_, hidx, ?_, hdw, hrt⟩
    · show (iterTicks cfgUnitHour (constDist d) nows rnds k trainC8).legProgress +
        (iterTicks cfgUnitHour (constDist d) nows rnds k trainC8).speedKmh * cfgUnitHour.dtHours
          / constDist d stationLA stationKC = _
      rw [hp, hsp, hdt, hcast, hsplit]
      rfl
    · show (if (rnds k).tweak = true then _ else _) = 60
      rw [htw k, if_neg Bool.false_ne_true]
      exact hsp

theorem c8_arrival (d : ℚ) (hd1 : 2121 < d)
    (nows : Nat → String) (rnds : Nat → TrainTickRand) (htw : ∀ i, (rnds i).tweak = false)
    (k : Nat) (hk : (k : ℚ) * (60 / d) < 1) (hk1 : 1 ≤ ((k : ℚ) + 1) * (60 / d)) :
    (iterTicks cfgUnitHour (constDist d) nows rnds (k + 1) trainC8).legProgress = 1 ∧
    (1/12 : ℚ) ≤ (iterTicks cfgUnitHour (constDist d) nows rnds (k + 1) trainC8).dwellRemainingHours ∧
    (iterTicks cfgUnitHour (constDist d) nows rnds (k + 1) trainC8).dwellRemainingHours ≤ 1/3 := by
  have hdpos : (0 : ℚ) < d := by linarith
  have hsplit : ((k : ℚ) + 1) * (60 / d) = (k : ℚ) * (60 / d) + 60 * 1 / d := by ring
  obtain ⟨hp, hidx, hsp, hdw, hrt⟩ := c8_transit d hd1 nows rnds htw k hk
  have hlen : ¬ (iterTicks cfgUnitHour (constDist d) nows rnds k trainC8).route.length < 2 := by
    rw [hrt]
    decide
  have hdwc : ¬ 0 < (iterTicks cfgUnitHour (constDist d) nows rnds k trainC8).dwellRemainingHours := by
    rw [hdw]
    norm_num
  have hnr : ¬ 1 ≤ (iterTicks cfgUnitHour (constDist d) nows rnds k trainC8).legProgress := by
    rw [hp]
    exact not_le.mpr hk
  have hroll := rollLeg_of_lt hnr
  have hf : stationByCode
      ((rollLeg (iterTicks cfgUnitHour (constDist d) nows rnds k trainC8)).route.getD
        (rollLeg (iterTicks cfgUnitHour (constDist d) nows rnds k trainC8)).currentLegIndex "")
      = some stationLA := by
    rw [hroll, hrt, hidx]
    rfl
  have hg : stationByCode
      ((rollLeg (iterTicks cfgUnitHour (constDist d) nows rnds k trainC8)).route.getD
        ((rollLeg (iterTicks cfgUnitHour (constDist d) nows rnds k trainC8)).currentLegIndex + 1) "")
      = some stationKC := by
    rw [hroll, hrt, hidx]
    rfl
  have heq : iterTicks cfgUnitHour (constDist d) nows rnds (k + 1) trainC8 =
      updateTrain cfgUnitHour (constDist d) (nows k) (rnds k)
        (iterTicks cfgUnitHour (constDist d) nows rnds k trainC8) := rfl
  have hdt : cfgUnitHour.dtHours = 1 := by norm_num [cfgUnitHour, Config.dtHours]
  have hcond : 1 ≤ (iterTicks cfgUnitHour (constDist d) nows rnds k trainC8).legProgress +
      (iterTicks cfgUnitHour (constDist d) nows rnds k trainC8).speedKmh * cfgUnitHour.dtHours
        / constDist d stationLA stationKC := by
    rw [hp, hsp, hdt]
    show 1 ≤ (k : ℚ) * (60 / d) + 60 * 1 / d
    rw [← hsplit]
    exact hk1
  rw [heq, updateTrain_of_move _ _ _ _ _ stationLA stationKC hlen hdwc hf hg, hroll]
  unfold moveTrain
  rw [if_pos hcond]
  refine ⟨rfl, ?_, ?_⟩
  · show (1/12 : ℚ) ≤
      ((randIntN cfgUnitHour.minDwellMinutes cfgUnitHour.maxDwellMinutes (rnds k).rDwell : ℕ) : ℚ) / 60
    have h5 : 5 ≤ randIntN cfgUnitHour.minDwellMinutes cfgUnitHour.maxDwellMinutes (rnds k).rDwell :=
      randIntN_lo_le 5 20 _
    have h5q : (5 : ℚ) ≤
        ((randIntN cfgUnitHour.minDwellMinutes cfgUnitHour.maxDwellMinutes (rnds k).rDwell : ℕ) : ℚ) := by
      exact_mod_cast h5
    linarith
  · show ((randIntN cfgUnitHour.minDwellMinutes cfgUnitHour.maxDwellMinutes (rnds k).rDwell : ℕ) : ℚ) / 60
      ≤ 1/3
    have h20 : randIntN cfgUnitHour.minDwellMinutes cfgUnitHour.maxDwellMinutes (rnds k).rDwell ≤ 20 :=
      randIntN_le_hi 5 20 _ (by norm_num)
    have h20q : ((randIntN cfgUnitHour.minDwellMinutes cfgUnitHour.maxDwellMinutes (rnds k).rDwell : ℕ) : ℚ)
        ≤ 20 := by
      exact_mod_cast h20
    linarith

/-- Counterexample to claim C8 as stated: the LA→KC leg distance computed by
the Geo Model on the source's station coordinates exceeds 1000 km (it lies in
`(2121, 2207)` km, float value ≈ 2178.4 km), so it is NOT approximately
690 km; consequently the per-hour progress increment at 60 km/h is ≈ 0.0275
(not ≈ 0.087) and arrival takes ≈ 36-37 simulated hours (not ≈ 11.5). -/
theorem claim_C8_counterexample :
    1000 < haversineKm (stationLA.lat : ℝ) (stationLA.lon : ℝ)
      (stationKC.lat : ℝ) (stationKC.lon : ℝ) := by
  have e1 : ((stationLA.lat : ℚ) : ℝ) = 34.033 := by norm_num [stationLA]
  have e2 : ((stationLA.lon : ℚ) : ℝ) = -118.238 := by norm_num [stationLA]
  have e3 : ((stationKC.lat : ℚ) : ℝ) = 39.104 := by norm_num [stationKC]
  have e4 : ((stationKC.lon : ℚ) : ℝ) = -94.598 := by norm_num [stationKC]
  rw [e1, e2, e3, e4]
  linarith [hav_LA_KC_bounds.1]

/-- Claim C8, amended.  For the scenario train (route `["LA","KC","CHI","NYC"]`,
speed 60 km/h, `currentLegIndex = 0`, `legProgress = 0`, one simulated hour
per tick): the Geo-Model LA→KC distance lies in `(2121, 2207)` km — about
2178 km, not ≈ 690 km; each tick therefore adds a progress increment of
`60/d ∈ (0.027, 0.029)` — not ≈ 0.087; and the train first arrives at KC
(`legProgress` clamped to exactly 1) on tick 36 or 37 — after ≈ 36-37
simulated hours, not ≈ 11.5 — at which point the dwell timer is set within
the configured `[MIN_DWELL, MAX_DWELL] = [5, 20]` simulated minutes
(`dwellRemainingHours ∈ [1/12, 1/3]`). -/
theorem claim_C8_amended :
    (2121 < haversineKm (stationLA.lat : ℝ) (stationLA.lon : ℝ)
        (stationKC.lat : ℝ) (stationKC.lon : ℝ) ∧
      haversineKm (stationLA.lat : ℝ) (stationLA.lon : ℝ)
        (stationKC.lat : ℝ) (stationKC.lon : ℝ) < 2207) ∧
    (∀ d : ℚ, 2121 < d → d < 2207 →
      ((27/1000 : ℚ) < 60 / d ∧ (60 / d : ℚ) < 29/1000) ∧
      ∀ (nows : Nat → String) (rnds : Nat → TrainTickRand), (∀ i, (rnds i).tweak = false) →
        ∃ k : Nat, 36 ≤ k ∧ k ≤ 37 ∧
          (iterTicks cfgUnitHour (constDist d) nows rnds (k - 1) trainC8).legProgress < 1 ∧
          (iterTicks cfgUnitHour (constDist d) nows rnds k trainC8).legProgress = 1 ∧
          (1/12 : ℚ) ≤ (iterTicks cfgUnitHour (constDist d) nows rnds k trainC8).dwellRemainingHours ∧
          (iterTicks cfgUnitHour (constDist d) nows rnds k trainC8).dwellRemainingHours ≤ 1/3) := by
  constructor
  · have e1 : ((stationLA.lat : ℚ) : ℝ) = 34.033 := by norm_num [stationLA]
    have e2 : ((stationLA.lon : ℚ) : ℝ) = -118.238 := by norm_num [stationLA]
    have e3 : ((stationKC.lat : ℚ) : ℝ) = 39.104 := by norm_num [stationKC]
    have e4 : ((stationKC.lon : ℚ) : ℝ) = -94.598 := by norm_num [stationKC]
    rw [e1, e2, e3, e4]
    exact hav_LA_KC_bounds
  · intro d hd1 hd2
    have hdpos : (0 : ℚ) < d := by linarith
    constructor
    · constructor
      · rw [lt_div_iff₀ hdpos]
        linarith
      · rw [div_lt_iff₀ hdpos]
        linarith
    · intro nows rnds htw
      by_cases hc : d ≤ 2160
      · have h35 : ((35 : ℕ) : ℚ) * (60 / d) < 1 := by
          push_cast
          rw [show (35 : ℚ) * (60 / d) = 2100 / d by ring, div_lt_one hdpos]
          linarith
        have h36 : 1 ≤ (((35 : ℕ) : ℚ) + 1) * (60 / d) := by
          push_cast
          rw [show ((35 : ℚ) + 1) * (60 / d) = 2160 / d by ring, le_div_iff₀ hdpos]
          linarith
        obtain ⟨ha1, ha2, ha3⟩ := c8_arrival d hd1 nows rnds htw 35 h35 h36
        refine ⟨36, by norm_num, by norm_num, ?_, ha1, ha2, ha3⟩
        rw [show (36 - 1 : ℕ) = 35 from rfl, (c8_transit d hd1 nows rnds htw 35 h35).1]
        exact h35
      · push_neg at hc
        have h36 : ((36 : ℕ) : ℚ) * (60 / d) < 1 := by
          push_cast
          rw [show (36 : ℚ) * (60 / d) = 2160 / d by ring, div_lt_one hdpos]
          linarith
        have h37 : 1 ≤ (((36 : ℕ) : ℚ) + 1) * (60 / d) := by
          push_cast
          rw [show ((36 : ℚ) + 1) * (60 / d) = 2220 / d by ring, le_div_iff₀ hdpos]
          linarith
        obtain ⟨ha1, ha2, ha3⟩ := c8_arrival d hd1 nows rnds htw 36 h36 h37
        refine ⟨37, by norm_num, by norm_num, ?_, ha1, ha2, ha3⟩
        rw [show (37 - 1 : ℕ) = 36 from rfl, (c8_transit d hd1 nows rnds htw 36 h36).1]
        exact h36

theorem claim_C8_amended_witness :
    ((2121 : ℚ) < 2178 ∧ (2178 : ℚ) < 2207) ∧
    (((27/1000 : ℚ) < 60 / 2178 ∧ (60 / 2178 : ℚ) < 29/1000) ∧
      ∃ k : Nat, 36 ≤ k ∧ k ≤ 37 ∧
        (iterTicks cfgUnitHour (constDist 2178) (fun _ => "t") (fun _ => zeroTrainTickRand)
          (k - 1) trainC8).legProgress < 1 ∧
        (iterTicks cfgUnitHour (constDist 2178) (fun _ => "t") (fun _ => zeroTrainTickRand)
          k trainC8).legProgress = 1 ∧
        (1/12 : ℚ) ≤ (iterTicks cfgUnitHour (constDist 2178) (fun _ => "t")
          (fun _ => zeroTrainTickRand) k trainC8).dwellRemainingHours ∧
        (iterTicks cfgUnitHour (constDist 2178) (fun _ => "t") (fun _ => zeroTrainTickRand)
          k trainC8).dwellRemainingHours ≤ 1/3) := by
  refine ⟨⟨by norm_num, by norm_num⟩, ?_⟩
  have h := claim_C8_amended.2 2178 (by norm_num) (by norm_num)
  exact ⟨h.1, h.2 (fun _ => "t") (fun _ => zeroTrainTickRand) (fun i => rfl)⟩

end Rail
